import Mathlib

/-! Ambient pod redirection controller (cni/pkg/ambient/net.go).

A shallow embedding of the node-local enrollment controller.  The Go functions
are translated one by one.  Everything the controller reaches outside its own
package (the ip-set, the command runner, the proc file system, the Kubernetes
client, the netlink lookups, the eBPF manager and the address parsers of the Go
library) is a field of `Collab`, over an arbitrary state type; every call to
such a collaborator is recorded in a trace so that statements of the form
"issues no call of kind X" can be made about the code.
-/

namespace Ambient

/-! ## Data model -/

/-- The fields of `corev1.Pod` that net.go reads. -/
structure Pod where
  Name : String
  Namespace : String
  UID : String
  PodIP : String
  HostNetwork : Bool
  Annotations : List (String × String)
deriving DecidableEq, Repr

/-- Package-level constants and variables read by net.go: `constants.RouteTableInbound`,
`constants.ZTunnelInboundTunIP`, `constants.InboundTun`, the package variable `HostIP`,
`pconstants.AmbientRedirection` and `pconstants.AmbientRedirectionEnabled`.  Their
declarations live outside net.go, so they are parameters of the embedding. -/
structure Constants where
  RouteTableInbound : Int
  ZTunnelInboundTunIP : String
  InboundTun : String
  HostIP : String
  AmbientRedirection : String
  AmbientRedirectionEnabled : String
deriving DecidableEq, Repr

/-- Go map indexing `pod.Annotations[key]`: the zero value (empty string) for a missing key. -/
def annotationOf (pod : Pod) (key : String) : String :=
  (pod.Annotations.lookup key).getD ""

/-- Go `buildRouteFromPod`: the argument list of the policy route of a pod. -/
def buildRouteFromPod (c : Constants) (pod : Pod) (ip : String) : Except String (List String) :=
  let ip := if ip = "" then pod.PodIP else ip
  if ip = "" then
    .error "no ip found"
  else
    .ok [ "table",
          toString c.RouteTableInbound,
          ip ++ "/32",
          "via",
          c.ZTunnelInboundTunIP,
          "dev",
          c.InboundTun,
          "src",
          c.HostIP ]

/-! ## Collaborators -/

/-- Go `net.IP`: a byte slice; the nil slice is the empty list. -/
abbrev IP := List Nat

/-- Go `net.HardwareAddr`. -/
abbrev HardwareAddr := List Nat

/-- Go `netip.Addr`. -/
structure Addr where
  bytes : List Nat
deriving DecidableEq, Repr

/-- The attributes of a `netlink.Veth` read by net.go (`veth.Attrs().Index`,
`veth.Attrs().NetNsID`). -/
structure Veth where
  Index : Int
  NetNsID : Int
deriving DecidableEq, Repr

/-- Go `ebpf.RedirectArgs`, with Go zero values as defaults. -/
structure RedirectArgs where
  IPAddrs : List Addr := []
  MacAddr : HardwareAddr := []
  Ifindex : Int := 0
  PeerIndex : Int := 0
  PeerNs : String := ""
  IsZtunnel : Bool := false
  Remove : Bool := false
  CaptureDNS : Bool := false
deriving DecidableEq, Repr

/-- One call made by the controller to something outside net.go. -/
inductive Call where
  | IsPodInIpset (pod : Pod)
  | IpsetAddIP (ip : IP) (comment : String)
  | IpsetDeleteIP (ip : IP)
  | executeOutput (cmd : String) (args : List String)
  | execute (cmd : String) (args : List String)
  | getDeviceWithDestinationOf (ip : String)
  | SetProc (path : String) (value : String)
  | Patch (ns : String) (name : String) (body : String)
  | getVethWithDestinationOf (ip : String)
  | getPeerIndex (veth : Veth)
  | getNsNameFromNsID (nsid : Int)
  | getMacFromNsIdx (ns : String) (ifIndex : Int)
  | AcceptRequest (args : RedirectArgs)
deriving DecidableEq, Repr

/-- Everything net.go calls and does not define, over a state `σ` of the node and the
API server.  A Go `error` result is an `Option String` (`none` is `nil`); a Go
`(value, error)` result is an `Except`.  Lookups read the state, mutations return the
new state.  `executeOutput` is used by net.go for the pipeline `ip route show ... | wc -l`
only, which reads the route table; `execute` for `ip route add` and `ip route del`.
`WriteFile` is `os.WriteFile` (behind `SetProc`), `Patch` the merge patch of the
Kubernetes client, `ParseIPTo4` is `net.ParseIP(s).To4()`, `ParseAddr` is
`netip.ParseAddr`. -/
structure Collab (σ : Type) where
  ParseIPTo4 : String → IP
  ParseAddr : String → Except String Addr
  IsPodInIpset : σ → Pod → Bool
  IpsetAddIP : σ → IP → String → σ × Option String
  IpsetDeleteIP : σ → IP → σ × Option String
  executeOutput : σ → String → List String → Except String String
  execute : σ → String → List String → σ × Option String
  getDeviceWithDestinationOf : σ → String → Except String String
  WriteFile : σ → String → String → σ × Option String
  Patch : σ → String → String → String → σ × Option String
  getVethWithDestinationOf : σ → String → Except String Veth
  getPeerIndex : σ → Veth → Except String Int
  getNsNameFromNsID : σ → Int → Except String String
  getMacFromNsIdx : σ → String → Int → Except String HardwareAddr
  AcceptRequest : σ → RedirectArgs → σ

/-- A run of controller code: the state of the collaborators and the calls issued so far. -/
abbrev M (σ : Type) := StateM (σ × List Call)

/-- A call that reads the collaborator state. -/
def observe {σ α : Type} (c : Call) (f : σ → α) : M σ α :=
  fun w => (f w.1, (w.1, w.2 ++ [c]))

/-- A call that may change the collaborator state. -/
def perform {σ α : Type} (c : Call) (f : σ → σ × α) : M σ α :=
  fun w => ((f w.1).2, ((f w.1).1, w.2 ++ [c]))

/-- Runs controller code from a state with an empty trace: result, final state, calls. -/
def runFrom {σ α : Type} (m : M σ α) (s : σ) : α × σ × List Call :=
  m (s, [])

/-- The state after running `m` from `s`. -/
def finalState {σ α : Type} (m : M σ α) (s : σ) : σ := (runFrom m s).2.1

/-- The calls issued by running `m` from `s`, in order. -/
def callsOf {σ α : Type} (m : M σ α) (s : σ) : List Call := (runFrom m s).2.2

/-- The value returned by running `m` from `s`. -/
def resultOf {σ α : Type} (m : M σ α) (s : σ) : α := (runFrom m s).1

section Code

variable {σ : Type} (K : Collab σ) (c : Constants)

/-! The functions of net.go.

Log statements have no effect on the collaborators and are left out. -/

/-- Go `RouteExists`: asks the kernel, through a shell pipeline, how many routes match. -/
def RouteExists (rte : List String) : M σ Bool := do
  let args := ["-c", "ip route show " ++ " ".intercalate rte ++ " | wc -l"]
  let r ← observe (.executeOutput "bash" args) (fun s => K.executeOutput s "bash" args)
  match r with
  | .error _ => pure false
  | .ok output => pure (output == "1")

/-- Go `SetProc`: writes a value to a proc file. -/
def SetProc (path : String) (value : String) : M σ (Option String) :=
  perform (.SetProc path value) (fun s => K.WriteFile s path value)

/-- Go `annotationPatch`. -/
def annotationPatch : String :=
  "\x7b\"metadata\":\x7b\"annotations\":\x7b\"" ++ c.AmbientRedirection ++ "\":\""
    ++ c.AmbientRedirectionEnabled ++ "\"\x7d\x7d\x7d"

/-- Go `annotationRemovePatch`. -/
def annotationRemovePatch : String :=
  "\x7b\"metadata\":\x7b\"annotations\":\x7b\"" ++ c.AmbientRedirection ++ "\":null\x7d\x7d\x7d"

/-- Go `AnnotateEnrolledPod`. -/
def AnnotateEnrolledPod (pod : Pod) : M σ (Option String) :=
  perform (.Patch pod.Namespace pod.Name (annotationPatch c))
    (fun s => K.Patch s pod.Namespace pod.Name (annotationPatch c))

/-- Go `AnnotateUnenrollPod`. -/
def AnnotateUnenrollPod (pod : Pod) : M σ (Option String) :=
  if annotationOf pod c.AmbientRedirection ≠ c.AmbientRedirectionEnabled then
    pure none
  else
    perform (.Patch pod.Namespace pod.Name (annotationRemovePatch c))
      (fun s => K.Patch s pod.Namespace pod.Name (annotationRemovePatch c))

/-- The route slice after `rte, err := buildRouteFromPod(...)`: nil when it failed. -/
def routeOrNil (r : Except String (List String)) : List String :=
  match r with
  | .ok rte => rte
  | .error _ => []

/-- Go `addPodToMeshWithIptables`. -/
def addPodToMeshWithIptables (pod : Pod) (ip : String) : M σ Unit := do
  let ip := if ip = "" then pod.PodIP else ip
  if ip = "" then
    pure ()
  else do
    let inSet ← observe (.IsPodInIpset pod) (fun s => K.IsPodInIpset s pod)
    if !inSet then
      let _ ← perform (.IpsetAddIP (K.ParseIPTo4 ip) pod.UID)
        (fun s => K.IpsetAddIP s (K.ParseIPTo4 ip) pod.UID)
    let rte := routeOrNil (buildRouteFromPod c pod ip)
    let known ← RouteExists K rte
    if !known then
      let _ ← perform (.execute "ip" (["route", "add"] ++ rte))
        (fun s => K.execute s "ip" (["route", "add"] ++ rte))
    let dev ← observe (.getDeviceWithDestinationOf ip)
      (fun s => K.getDeviceWithDestinationOf s ip)
    match dev with
    | .error _ => pure ()
    | .ok dev =>
      let path := "/proc/sys/net/ipv4/conf/" ++ dev ++ "/rp_filter"
      let _ ← SetProc K path "0"
      let _ ← AnnotateEnrolledPod K c pod
      pure ()

/-- Go `AddPodToMesh` (the package-level function). -/
def AddPodToMesh (pod : Pod) (ip : String) : M σ Unit :=
  addPodToMeshWithIptables K c pod ip

/-- Go `DelPodFromMesh` (the package-level function). -/
def DelPodFromMesh (pod : Pod) : M σ Unit := do
  let inSet ← observe (.IsPodInIpset pod) (fun s => K.IsPodInIpset s pod)
  if inSet then
    let _ ← perform (.IpsetDeleteIP (K.ParseIPTo4 pod.PodIP))
      (fun s => K.IpsetDeleteIP s (K.ParseIPTo4 pod.PodIP))
  let rte := routeOrNil (buildRouteFromPod c pod "")
  let known ← RouteExists K rte
  if known then
    let _ ← perform (.execute "ip" (["route", "del"] ++ rte))
      (fun s => K.execute s "ip" (["route", "del"] ++ rte))
  let _ ← AnnotateUnenrollPod K c pod
  pure ()

/-- Go `buildEbpfArgsByIP`. -/
def buildEbpfArgsByIP (ip : String) (isZtunnel isRemove : Bool) :
    M σ (Except String RedirectArgs) := do
  match K.ParseAddr ip with
  | .error e => pure (.error ("failed to parse ip(" ++ ip ++ "): " ++ e))
  | .ok ipAddr =>
    let veth ← observe (.getVethWithDestinationOf ip) (fun s => K.getVethWithDestinationOf s ip)
    match veth with
    | .error e => pure (.error ("failed to get device: " ++ e))
    | .ok veth =>
      let peerIndex ← observe (.getPeerIndex veth) (fun s => K.getPeerIndex s veth)
      match peerIndex with
      | .error e => pure (.error ("failed to get veth peerIndex: " ++ e))
      | .ok peerIndex =>
        let peerNs ← observe (.getNsNameFromNsID veth.NetNsID)
          (fun s => K.getNsNameFromNsID s veth.NetNsID)
        match peerNs with
        | .error e => pure (.error ("failed to get ns name: " ++ e))
        | .ok peerNs =>
          let mac ← observe (.getMacFromNsIdx peerNs peerIndex)
            (fun s => K.getMacFromNsIdx s peerNs peerIndex)
          match mac with
          | .error e => pure (.error e)
          | .ok mac =>
            pure (.ok { IPAddrs := [ipAddr], MacAddr := mac, Ifindex := veth.Index,
                        PeerIndex := peerIndex, PeerNs := peerNs, IsZtunnel := isZtunnel,
                        Remove := isRemove })

/-- Go `RedirectMode` with its two values. -/
inductive RedirectMode where
  | IptablesMode
  | EbpfMode
deriving DecidableEq, Repr

/-- The fields of Go `Server` read by net.go.  `ebpfServer` is the pointer to the eBPF
manager (`none` is nil); the manager itself is reached through `Collab.AcceptRequest`,
and the Kubernetes client through `Collab.Patch`. -/
structure Server where
  redirectMode : RedirectMode
  ebpfServer : Option Unit
deriving DecidableEq, Repr

/-- Go `(*Server).updateZtunnelEbpfOnNode`. -/
def updateZtunnelEbpfOnNode (srv : Server) (pod : Pod) (captureDNS : Bool) :
    M σ (Option String) := do
  if srv.ebpfServer = none then
    pure (some "uninitialized ebpf server")
  else do
    let ip := pod.PodIP
    let r ← buildEbpfArgsByIP K ip true false
    match r with
    | .error e => pure (some e)
    | .ok args =>
      let args := { args with CaptureDNS := captureDNS }
      perform (.AcceptRequest args) (fun s => (K.AcceptRequest s args, ()))
      pure none

/-- Go `(*Server).delZtunnelEbpfOnNode`. -/
def delZtunnelEbpfOnNode (srv : Server) : M σ (Option String) := do
  if srv.ebpfServer = none then
    pure (some "uninitialized ebpf server")
  else do
    let args : RedirectArgs := { Ifindex := 0, IsZtunnel := true, Remove := true }
    perform (.AcceptRequest args) (fun s => (K.AcceptRequest s args, ()))
    pure none

/-- Go `(*Server).updatePodEbpfOnNode`. -/
def updatePodEbpfOnNode (srv : Server) (pod : Pod) : M σ (Option String) := do
  if srv.ebpfServer = none then
    pure (some "uninitialized ebpf server")
  else do
    let ip := pod.PodIP
    if ip = "" then
      pure none
    else do
      let r ← buildEbpfArgsByIP K ip false false
      match r with
      | .error e => pure (some e)
      | .ok args =>
        perform (.AcceptRequest args) (fun s => (K.AcceptRequest s args, ()))
        pure none

/-- Go `(*Server).delPodEbpfOnNode`. -/
def delPodEbpfOnNode (srv : Server) (ip : String) : M σ (Option String) := do
  if srv.ebpfServer = none then
    pure (some "uninitialized ebpf server")
  else do
    if ip = "" then
      pure none
    else
      match K.ParseAddr ip with
      | .error e => pure (some ("failed to parse ip(" ++ ip ++ "): " ++ e))
      | .ok ipAddr =>
        let veth ← observe (.getVethWithDestinationOf ip)
          (fun s => K.getVethWithDestinationOf s ip)
        let ifIndex : Int :=
          match veth with
          | .error _ => 0
          | .ok veth => veth.Index
        let args : RedirectArgs :=
          { IPAddrs := [ipAddr], Ifindex := ifIndex, IsZtunnel := false, Remove := true }
        perform (.AcceptRequest args) (fun s => (K.AcceptRequest s args, ()))
        pure none

/-- Go `(*Server).AddPodToMesh`. -/
def Server.AddPodToMesh (srv : Server) (pod : Pod) : M σ Unit := do
  match srv.redirectMode with
  | .IptablesMode => addPodToMeshWithIptables K c pod ""
  | .EbpfMode =>
    let _ ← updatePodEbpfOnNode K srv pod
    let _ ← AnnotateEnrolledPod K c pod
    pure ()

/-- Go `(*Server).DelPodFromMesh`. -/
def Server.DelPodFromMesh (srv : Server) (pod : Pod) : M σ Unit := do
  match srv.redirectMode with
  | .IptablesMode => Ambient.DelPodFromMesh K c pod
  | .EbpfMode =>
    if pod.HostNetwork then
      pure ()
    else do
      let _ ← delPodEbpfOnNode K srv pod.PodIP
      let _ ← AnnotateUnenrollPod K c pod
      pure ()

end Code

/-- Following the specification (4.3 `ResolveForIP`, 4.4 parse step): the fully
resolved identity of a workload address in state `s`: the parsed address, the host-side
veth routing to it, the peer index of that veth, the name of the peer namespace and the
hardware address of the peer; `none` as soon as one step fails. -/
def ResolveForIP {σ : Type} (K : Collab σ) (s : σ) (ip : String) :
    Option (Addr × Veth × Int × String × HardwareAddr) :=
  match K.ParseAddr ip with
  | .error _ => none
  | .ok ipAddr =>
    match K.getVethWithDestinationOf s ip with
    | .error _ => none
    | .ok veth =>
      match K.getPeerIndex s veth with
      | .error _ => none
      | .ok peerIndex =>
        match K.getNsNameFromNsID s veth.NetNsID with
        | .error _ => none
        | .ok peerNs =>
          match K.getMacFromNsIdx s peerNs peerIndex with
          | .error _ => none
          | .ok mac => some (ipAddr, veth, peerIndex, peerNs, mac)

/-- A descriptor carries the resolved identity `id`. -/
def CarriesIdentity (args : RedirectArgs) (id : Addr × Veth × Int × String × HardwareAddr) :
    Prop :=
  args.IPAddrs = [id.1] ∧ args.Ifindex = id.2.1.Index ∧ args.PeerIndex = id.2.2.1
    ∧ args.PeerNs = id.2.2.2.1 ∧ args.MacAddr = id.2.2.2.2

instance (args : RedirectArgs) (id : Addr × Veth × Int × String × HardwareAddr) :
    Decidable (CarriesIdentity args id) := by
  unfold CarriesIdentity
  infer_instance

/-! ## Kinds of calls -/

/-- A query or mutation of the ip-set. -/
def Call.isIpset : Call → Bool
  | .IsPodInIpset _ => true
  | .IpsetAddIP _ _ => true
  | .IpsetDeleteIP _ => true
  | _ => false

/-- An ip-set add. -/
def Call.isIpsetAdd : Call → Bool
  | .IpsetAddIP _ _ => true
  | _ => false

/-- A use of the command runner: the route query (`executeOutput`) or a route add or
delete (`execute`). -/
def Call.isRoute : Call → Bool
  | .executeOutput _ _ => true
  | .execute _ _ => true
  | _ => false

/-- A command `ip route add ...`. -/
def Call.isRouteAdd : Call → Bool
  | .execute cmd args => cmd == "ip" && args.take 2 == ["route", "add"]
  | _ => false

/-- A request handed to the eBPF manager. -/
def Call.isEbpf : Call → Bool
  | .AcceptRequest _ => true
  | _ => false

/-- A lookup of the network identity resolver. -/
def Call.isIdentityLookup : Call → Bool
  | .getVethWithDestinationOf _ => true
  | .getPeerIndex _ => true
  | .getNsNameFromNsID _ => true
  | .getMacFromNsIdx _ _ => true
  | _ => false

/-- An annotation patch. -/
def Call.isPatch : Call → Bool
  | .Patch _ _ _ => true
  | _ => false

/-! ## A reference node

The collaborators themselves are not part of net.go.  For concrete runs, and for the
statements that need to know what a collaborator does, the following node is used. -/

/-- Modelled from the spec: the step failures of section 7 (`KernelMutationFailed`,
`AnnotationPatchFailed`), as the set of operations of the reference node that fail. -/
structure Faults where
  ipsetAdd : Bool := false
  ipsetDelete : Bool := false
  routeShow : Bool := false
  routeAdd : Bool := false
  routeDel : Bool := false
  writeFile : Bool := false
  patch : Bool := false
deriving DecidableEq, Repr

/-- Modelled from the spec: the part of the reference node that no controller call
changes (section 4.3): the faults and the
tables of the network identity resolver (workload address to host device, workload
address to veth, veth index to peer index, namespace id to name, namespace and index to
hardware address). -/
structure NodeEnv where
  faults : Faults := {}
  devices : List (String × String) := []
  veths : List (String × Veth) := []
  peerIndexes : List (Int × Int) := []
  nsNames : List (Int × String) := []
  macs : List ((String × Int) × HardwareAddr) := []
deriving DecidableEq, Repr

/-- Modelled from the spec: the state of the reference node (section 3): ip-set contents (UID
and address), policy routes (each the text of its arguments), proc files (rp_filter
settings), the value of the enrollment key per (namespace, name), and the descriptors the
eBPF manager has accepted. -/
structure KState where
  ipset : List (String × IP) := []
  routes : List String := []
  procFiles : List (String × String) := []
  annotations : List ((String × String) × String) := []
  submitted : List RedirectArgs := []
deriving DecidableEq, Repr

/-- Splits a character list at every dot. -/
def splitDots : List Char → List (List Char)
  | [] => [[]]
  | ch :: cs =>
    if ch = '.' then [] :: splitDots cs
    else
      match splitDots cs with
      | [] => [[ch]]
      | p :: ps => (ch :: p) :: ps

/-- One decimal field of a dotted IPv4 address: one to three digits, no leading zero,
at most 255. -/
def parseOctet (cs : List Char) : Option Nat :=
  if cs = [] ∨ 3 < cs.length ∨ cs.all Char.isDigit = false ∨ (1 < cs.length ∧ cs.head? = some '0')
  then none
  else
    let n := cs.foldl (fun acc ch => 10 * acc + (ch.toNat - 48)) 0
    if n ≤ 255 then some n else none

/-- Dotted-decimal IPv4 parsing, the nil slice for anything else: what the Go library
call `net.ParseIP(s).To4()` yields on dotted IPv4 text and on text that is no address. -/
def parseIPv4 (s : String) : IP :=
  match (splitDots s.data).map parseOctet with
  | [some a, some b, some c, some d] => [a, b, c, d]
  | _ => []

/-- Sets key `k` to `v` in an association list, dropping older bindings of `k`. -/
def assocSet {κ ν : Type} [DecidableEq κ] (k : κ) (v : ν) (l : List (κ × ν)) : List (κ × ν) :=
  (k, v) :: l.filter (fun e => e.1 ≠ k)

/-- Removes key `k` from an association list. -/
def assocErase {κ ν : Type} [DecidableEq κ] (k : κ) (l : List (κ × ν)) : List (κ × ν) :=
  l.filter (fun e => e.1 ≠ k)

/-- A table lookup of the identity resolver, failing with `msg` on a missing key. -/
def lookupOr {κ ν : Type} [BEq κ] (l : List (κ × ν)) (k : κ) (msg : String) : Except String ν :=
  match l.lookup k with
  | some v => .ok v
  | none => .error msg

/-- The shell pipeline `RouteExists` runs for a route whose argument text is `key`. -/
def showCommand (key : String) : String :=
  "ip route show " ++ key ++ " | wc -l"

/-- Modelled from the spec: the collaborators of section 6, whose code is not in net.go
(the ip-set with `Contains(UID)`, `AddIP(addr, UID)`, `DeleteIP(addr)`; the command
runner for `ip route show`, `ip route add`, `ip route del`; writes to proc files; the
merge patch of the enrollment key; the eBPF manager's `AcceptRequest`; the lookups of
the network identity resolver).  The ip-set holds IPv4 addresses only, one entry per
address; `ip route show <args> | wc -l` prints the number of stored routes with exactly
these arguments; adding a stored route and deleting a missing one fail; a write and a
patch replace the previous value.  Every operation also fails when its fault is set. -/
def refKernel (c : Constants) (env : NodeEnv) : Collab KState where
  ParseIPTo4 := parseIPv4
  ParseAddr := fun s =>
    match parseIPv4 s with
    | [] => .error "unable to parse IP"
    | bs => .ok ⟨bs⟩
  IsPodInIpset := fun s pod => s.ipset.any (fun e => e.1 == pod.UID)
  IpsetAddIP := fun s ip comment =>
    if env.faults.ipsetAdd = true ∨ ip.length ≠ 4 ∨ ip ∈ s.ipset.map Prod.snd then
      (s, some "ipset add failed")
    else
      ({ s with ipset := (comment, ip) :: s.ipset }, none)
  IpsetDeleteIP := fun s ip =>
    if env.faults.ipsetDelete = true ∨ ip ∉ s.ipset.map Prod.snd then
      (s, some "ipset del failed")
    else
      ({ s with ipset := s.ipset.filter (fun e => e.2 ≠ ip) }, none)
  executeOutput := fun s cmd args =>
    if env.faults.routeShow = true ∨ cmd ≠ "bash" then .error "exec failed"
    else
      match args with
      | ["-c", script] =>
        .ok (toString (s.routes.filter (fun key => showCommand key = script)).length)
      | _ => .error "exec failed"
  execute := fun s cmd args =>
    if cmd ≠ "ip" then (s, some "exec failed")
    else
      match args with
      | "route" :: "add" :: rte =>
        if env.faults.routeAdd = true ∨ " ".intercalate rte ∈ s.routes then
          (s, some "RTNETLINK answers: File exists")
        else
          ({ s with routes := " ".intercalate rte :: s.routes }, none)
      | "route" :: "del" :: rte =>
        if env.faults.routeDel = true ∨ " ".intercalate rte ∉ s.routes then
          (s, some "RTNETLINK answers: No such process")
        else
          ({ s with routes := s.routes.filter (fun key => key ≠ " ".intercalate rte) }, none)
      | _ => (s, some "exec failed")
  getDeviceWithDestinationOf := fun _ ip => lookupOr env.devices ip "no device"
  WriteFile := fun s path value =>
    if env.faults.writeFile = true then (s, some "write failed")
    else ({ s with procFiles := assocSet path value s.procFiles }, none)
  Patch := fun s ns name body =>
    if env.faults.patch = true then (s, some "patch failed")
    else if body = annotationPatch c then
      ({ s with annotations := assocSet (ns, name) c.AmbientRedirectionEnabled s.annotations },
        none)
    else if body = annotationRemovePatch c then
      ({ s with annotations := assocErase (ns, name) s.annotations }, none)
    else (s, none)
  getVethWithDestinationOf := fun _ ip => lookupOr env.veths ip "no veth"
  getPeerIndex := fun _ veth => lookupOr env.peerIndexes veth.Index "no peer index"
  getNsNameFromNsID := fun _ nsid => lookupOr env.nsNames nsid "no namespace"
  getMacFromNsIdx := fun _ ns idx => lookupOr env.macs (ns, idx) "no hardware address"
  AcceptRequest := fun s args => { s with submitted := s.submitted ++ [args] }

/-- The answer of `RouteExists` on the reference node for the route with argument text
`key`, from the stored routes. -/
def routeQueryHolds (env : NodeEnv) (key : String) (routes : List String) : Bool :=
  !env.faults.routeShow
    && toString (routes.filter (fun k => showCommand k = showCommand key)).length == "1"

/-- The ip-set of the reference node after the ip-set step of an enrollment. -/
def ipsetAfterEnroll (env : NodeEnv) (pod : Pod) (l : List (String × IP)) : List (String × IP) :=
  if l.any (fun e => e.1 == pod.UID) then l
  else if env.faults.ipsetAdd = true ∨ (parseIPv4 pod.PodIP).length ≠ 4
      ∨ parseIPv4 pod.PodIP ∈ l.map Prod.snd then l
  else (pod.UID, parseIPv4 pod.PodIP) :: l

/-- The routes of the reference node after the route step of an enrollment. -/
def routesAfterEnroll (env : NodeEnv) (key : String) (routes : List String) : List String :=
  if routeQueryHolds env key routes then routes
  else if env.faults.routeAdd = true ∨ key ∈ routes then routes
  else key :: routes

/-- The state of the reference node after `addPodToMeshWithIptables` for a pod with an
address, step by step. -/
def enrolledState (c : Constants) (env : NodeEnv) (pod : Pod) (s : KState) : KState :=
  match env.devices.lookup pod.PodIP with
  | none =>
    { s with
      ipset := ipsetAfterEnroll env pod s.ipset
      routes := routesAfterEnroll env
        (" ".intercalate (routeOrNil (buildRouteFromPod c pod pod.PodIP))) s.routes }
  | some dev =>
    { ipset := ipsetAfterEnroll env pod s.ipset
      routes := routesAfterEnroll env
        (" ".intercalate (routeOrNil (buildRouteFromPod c pod pod.PodIP))) s.routes
      procFiles :=
        if env.faults.writeFile = true then s.procFiles
        else assocSet ("/proc/sys/net/ipv4/conf/" ++ dev ++ "/rp_filter") "0" s.procFiles
      annotations :=
        if env.faults.patch = true then s.annotations
        else assocSet (pod.Namespace, pod.Name) c.AmbientRedirectionEnabled s.annotations
      submitted := s.submitted }

/-- The part of the reference node that the specification names as the kernel and
annotation state: ip-set contents, route table, rp_filter settings, enrollment
annotation. -/
def KState.named (s : KState) :
    List (String × IP) × List String × List (String × String)
      × List ((String × String) × String) :=
  (s.ipset, s.routes, s.procFiles, s.annotations)

/-! ## Host address resolution -/

/-- Go `corev1.NodeAddress`; `AddrType` is its field `Type`. -/
structure NodeAddress where
  AddrType : String
  Address : String
deriving DecidableEq, Repr

/-- The fields of `corev1.Node` that net.go reads: `Spec.PodCIDR` and
`Status.Addresses`. -/
structure Node where
  PodCIDR : String
  Addresses : List NodeAddress
deriving DecidableEq, Repr

/-- Go `corev1.NodeInternalIP`. -/
def NodeInternalIP : String := "InternalIP"

/-- Go `netip.Prefix`: an address and a number of leading bits. -/
structure Prefix where
  addr : Addr
  bits : Nat
deriving DecidableEq, Repr

/-- The functions of the Go package `netip` that `GetHostIP` calls: `ParsePrefix`,
`ParseAddr`, `Prefix.Contains` and `Addr.String`. -/
structure NetLib where
  ParsePrefix : String → Except String Prefix
  ParseAddr : String → Except String Addr
  Contains : Prefix → Addr → Bool
  AddrString : Addr → String

/-- Go `strings.Split(s, "/")[0]`: the text before the first slash, all of `s` when it
has none. -/
def beforeSlash (s : String) : String :=
  String.mk (s.data.takeWhile (fun ch => ch ≠ '/'))

/-- The loop `for _, address := range node.Status.Addresses` of `GetHostIP`: the address
it returns, `none` when the loop ends without returning. -/
def internalIPLoop : List NodeAddress → Option String
  | [] => none
  | address :: rest =>
    if address.AddrType = NodeInternalIP then some address.Address
    else internalIPLoop rest

/-- The loop `for _, addr := range addrs` of `GetHostIP`: what it returns, `none` when the
loop ends without returning. -/
def addrLoop (L : NetLib) (network : Prefix) : List String → Option (Except String String)
  | [] => none
  | addr :: rest =>
    match L.ParseAddr (beforeSlash addr) with
    | .error e => some (.error ("error parsing address: " ++ e))
    | .ok a =>
      if L.Contains network a = true then some (.ok (L.AddrString a))
      else addrLoop L network rest

/-- The loop `for _, iface := range ifaces` of `GetHostIP`; each interface is given by the
result of its `iface.Addrs()`, the texts `addr.String()` of its addresses. -/
def ifaceLoop (L : NetLib) (network : Prefix) :
    List (Except String (List String)) → Option (Except String String)
  | [] => none
  | iface :: rest =>
    match iface with
    | .error e => some (.error ("error getting addresses: " ++ e))
    | .ok addrs =>
      match addrLoop L network addrs with
      | some r => some r
      | none => ifaceLoop L network rest

/-- Go `GetHostIP`.  `getNode` is the result of the node lookup of the Kubernetes client,
`interfaces` the result of `net.Interfaces()`. -/
def GetHostIP (L : NetLib) (getNode : Except String Node)
    (interfaces : Except String (List (Except String (List String)))) : Except String String :=
  match getNode with
  | .error e => .error ("error getting node: " ++ e)
  | .ok node =>
    let ip := node.PodCIDR
    let fallBack : Except String String :=
      match internalIPLoop node.Addresses with
      | some address => .ok address
      | none => .ok ""
    if ip = "" then
      match internalIPLoop node.Addresses with
      | some address => .ok address
      | none => fallBack
    else
      match L.ParsePrefix ip with
      | .error e => .error ("error parsing node IP: " ++ e)
      | .ok network =>
        match interfaces with
        | .error e => .error ("error getting interfaces: " ++ e)
        | .ok ifaces =>
          match ifaceLoop L network ifaces with
          | some r => r
          | none => fallBack

/-- Following the claim: the node's first address of type NodeInternalIP. -/
def firstInternalIP (node : Node) : Option String :=
  (node.Addresses.find? (fun address => address.AddrType == NodeInternalIP)).map
    NodeAddress.Address

/-- Following the claim: the first local interface address, in interface order and then
address order, that lies in the prefix; addresses whose text does not parse lie in no
prefix. -/
def firstInCIDR (L : NetLib) (network : Prefix) (ifaces : List (List String)) : Option Addr :=
  (ifaces.flatten.filterMap (fun s => (L.ParseAddr (beforeSlash s)).toOption)).find?
    (fun a => L.Contains network a)

/-- Parses `a.b.c.d/n` with `n` at most 32. -/
def parsePrefix4 (s : String) : Except String Prefix :=
  match parseIPv4 (beforeSlash s),
      parseOctet ((s.data.dropWhile (fun ch => ch ≠ '/')).drop 1) with
  | [], _ => .error "no IP"
  | _, none => .error "bad bits"
  | bs, some n => if n ≤ 32 then .ok ⟨⟨bs⟩, n⟩ else .error "prefix length out of range"

/-- The four bytes of an IPv4 address as one number. -/
def addrNumber (a : Addr) : Nat :=
  a.bytes.foldl (fun acc b => 256 * acc + b) 0

/-- The Go library functions on dotted IPv4 text, for concrete runs: an address lies in a
prefix when both agree on the leading `bits` bits. -/
def refNetLib : NetLib where
  ParsePrefix := parsePrefix4
  ParseAddr := fun s =>
    match parseIPv4 s with
    | [] => .error "unable to parse IP"
    | bs => .ok ⟨bs⟩
  Contains := fun p a =>
    a.bytes.length == 4
      && addrNumber a / 2 ^ (32 - p.bits) == addrNumber p.addr / 2 ^ (32 - p.bits)
  AddrString := fun a => ".".intercalate (a.bytes.map toString)

/-- A node with a pod CIDR and two reported addresses. -/
def exampleNode : Node :=
  { PodCIDR := "10.244.1.0/24"
    Addresses := [⟨"Hostname", "node-1"⟩, ⟨"InternalIP", "192.168.1.5"⟩] }

/-- The addresses of two local interfaces, as `addr.String()` prints them. -/
def exampleIfaces : List (List String) :=
  [["127.0.0.1/8"], ["192.168.1.5/24", "10.244.1.1/24", "10.244.1.9/24"]]

/-! ## Predicates on controller code -/

/-- Whatever the state and the earlier calls, `m` extends the trace by calls that all
satisfy `P`. -/
def Emits {σ α : Type} (P : Call → Prop) (m : M σ α) : Prop :=
  ∀ w : σ × List Call, ∃ l : List Call, (m w).2.2 = w.2 ++ l ∧ ∀ x ∈ l, P x

/-- Code that leaves an observable of the state as it found it. -/
def Keeps {σ α β : Type} (g : σ → β) (m : M σ α) : Prop :=
  ∀ w : σ × List Call, g (m w).2.1 = g w.1

/-! ## The example of the specification -/

/-- The constants of the example of the specification, with an arbitrary host address. -/
def exampleConstants (hostIP : String) : Constants :=
  { RouteTableInbound := 100
    ZTunnelInboundTunIP := "169.254.7.127"
    InboundTun := "istioin"
    HostIP := hostIP
    AmbientRedirection := "ambient.istio.io/redirection"
    AmbientRedirectionEnabled := "enabled" }

/-- A reference node on which the identity of the example workload resolves. -/
def exampleEnv : NodeEnv :=
  { devices := [("10.1.2.7", "veth1")]
    veths := [("10.1.2.7", { Index := 12, NetNsID := 4 })]
    peerIndexes := [(12, 3)]
    nsNames := [(4, "cni-1")]
    macs := [(("cni-1", 3), [2, 66, 172, 17, 0, 7])] }

/-- The workload of the example of the specification. -/
def examplePod : Pod :=
  { Name := "app-1", Namespace := "default", UID := "uid-1", PodIP := "10.1.2.7",
    HostNetwork := false, Annotations := [] }

end Ambient

namespace Ambient

theorem intercalate_space_nine (a b c d e f g h i : String) :
    " ".intercalate [a, b, c, d, e, f, g, h, i]
      = a ++ " " ++ b ++ " " ++ c ++ " " ++ d ++ " " ++ e ++ " " ++ f ++ " " ++ g ++ " " ++ h
          ++ " " ++ i := by
  simp [String.intercalate, String.intercalate.go]

/-- C1: with e the ip argument when non-empty and the reported pod IP otherwise,
buildRouteFromPod returns an error (and no route) when e is empty and otherwise exactly
the nine arguments table, decimal table id, e/32, via, tunnel IP, dev, tunnel device,
src, host IP; for table 100, tunnel IP 169.254.7.127, device istioin and pod IP 10.1.2.7
the arguments joined by spaces read
"table 100 10.1.2.7/32 via 169.254.7.127 dev istioin src hostIP". -/
theorem buildRouteFromPod_spec (c : Constants) (pod : Pod) (ip : String) :
    buildRouteFromPod c pod ip
        = (if (if ip ≠ "" then ip else pod.PodIP) = "" then Except.error "no ip found"
           else Except.ok
            [ "table", toString c.RouteTableInbound,
              (if ip ≠ "" then ip else pod.PodIP) ++ "/32", "via", c.ZTunnelInboundTunIP,
              "dev", c.InboundTun, "src", c.HostIP ])
      ∧ (∀ hostIP : String,
          (buildRouteFromPod (exampleConstants hostIP) examplePod "").map (" ".intercalate)
            = Except.ok ("table 100 10.1.2.7/32 via 169.254.7.127 dev istioin src " ++ hostIP)) := by
  refine ⟨?_, ?_⟩
  · by_cases h : ip = "" <;> simp [buildRouteFromPod, h]
  · intro hostIP
    have h100 : toString (100 : Int) = "100" := by decide
    have hip : ¬ examplePod.PodIP = "" := by decide
    simp only [buildRouteFromPod, exampleConstants, if_true, if_neg hip, Except.map,
      intercalate_space_nine, h100]
    congr 1

/-! ## Calls issued by a piece of controller code -/

theorem emits_pure {σ α : Type} (P : Call → Prop) (a : α) : Emits P (pure a : M σ α) := by
  intro w
  exact ⟨[], by simp [pure, StateT.pure], by simp⟩

theorem emits_bind {σ α β : Type} {P : Call → Prop} {m : M σ α} {f : α → M σ β}
    (hm : Emits P m) (hf : ∀ a, Emits P (f a)) : Emits P (m >>= f) := by
  intro w
  obtain ⟨l₁, h₁, hP₁⟩ := hm w
  obtain ⟨l₂, h₂, hP₂⟩ := hf (m w).1 (m w).2
  refine ⟨l₁ ++ l₂, ?_, ?_⟩
  · show (f (m w).1 (m w).2).2.2 = w.2 ++ (l₁ ++ l₂)
    rw [h₂, h₁, List.append_assoc]
  · intro x hx
    rcases List.mem_append.mp hx with h | h
    · exact hP₁ x h
    · exact hP₂ x h

theorem emits_observe {σ α : Type} {P : Call → Prop} {call : Call} (f : σ → α) (h : P call) :
    Emits P (observe call f) := by
  intro w
  exact ⟨[call], rfl, by simpa using h⟩

theorem emits_perform {σ α : Type} {P : Call → Prop} {call : Call} (f : σ → σ × α)
    (h : P call) : Emits P (perform call f) := by
  intro w
  exact ⟨[call], rfl, by simpa using h⟩

theorem emits_calls {σ α : Type} {P : Call → Prop} {m : M σ α} (h : Emits P m) (s : σ) :
    ∀ x ∈ callsOf m s, P x := by
  obtain ⟨l, hl, hP⟩ := h (s, [])
  intro x hx
  have : callsOf m s = l := by simpa [callsOf, runFrom] using hl
  exact hP x (this ▸ hx)

theorem emits_mono {σ α : Type} {P Q : Call → Prop} {m : M σ α} (h : Emits P m)
    (hPQ : ∀ x, P x → Q x) : Emits Q m := by
  intro w
  obtain ⟨l, hl, hP⟩ := h w
  exact ⟨l, hl, fun x hx => hPQ x (hP x hx)⟩

/-- Code that issues no call at all. -/
theorem emits_false_calls {σ α : Type} {m : M σ α} (h : Emits (fun _ => False) m) (s : σ) :
    callsOf m s = [] := by
  have := emits_calls h s
  cases hc : callsOf m s with
  | nil => rfl
  | cons x xs => exact (this x (by simp [hc])).elim

section Frames

variable {σ : Type} (K : Collab σ) (c : Constants)

theorem emits_RouteExists {P : Call → Prop} (rte : List String)
    (h : ∀ cmd args, P (.executeOutput cmd args)) : Emits P (RouteExists K rte) := by
  unfold RouteExists
  refine emits_bind (emits_observe _ (h _ _)) (fun r => ?_)
  split <;> exact emits_pure _ _

theorem emits_AnnotateEnrolledPod {P : Call → Prop} (pod : Pod)
    (h : ∀ ns name body, P (.Patch ns name body)) : Emits P (AnnotateEnrolledPod K c pod) :=
  emits_perform _ (h _ _ _)

theorem emits_AnnotateUnenrollPod {P : Call → Prop} (pod : Pod)
    (h : ∀ ns name body, P (.Patch ns name body)) : Emits P (AnnotateUnenrollPod K c pod) := by
  unfold AnnotateUnenrollPod
  split
  · exact emits_pure _ _
  · exact emits_perform _ (h _ _ _)

/-- The enroll path of the route mode issues only ip-set, command, device, proc and patch
calls. -/
theorem emits_addPodToMeshWithIptables {P : Call → Prop} (pod : Pod) (ip : String)
    (h : ∀ x : Call, x.isEbpf = false → x.isIdentityLookup = false → P x) :
    Emits P (addPodToMeshWithIptables K c pod ip) := by
  unfold addPodToMeshWithIptables
  simp only []
  repeat' first
    | exact emits_pure _ _
    | exact emits_observe _ (h _ rfl rfl)
    | exact emits_perform _ (h _ rfl rfl)
    | exact emits_RouteExists K _ (fun _ _ => h _ rfl rfl)
    | exact emits_AnnotateEnrolledPod K c pod (fun _ _ _ => h _ rfl rfl)
    | refine emits_bind ?_ (fun _ => ?_)
    | split

/-- Building a descriptor issues identity lookups only. -/
theorem emits_buildEbpfArgsByIP {P : Call → Prop} (ip : String) (isZtunnel isRemove : Bool)
    (h : ∀ x : Call, x.isIdentityLookup = true → P x) :
    Emits P (buildEbpfArgsByIP K ip isZtunnel isRemove) := by
  unfold buildEbpfArgsByIP
  repeat' first
    | exact emits_pure _ _
    | exact emits_observe _ (h _ rfl)
    | refine emits_bind ?_ (fun _ => ?_)
    | split

/-- The eBPF enroll step issues identity lookups and requests to the eBPF manager only. -/
theorem emits_updatePodEbpfOnNode {P : Call → Prop} (srv : Server) (pod : Pod)
    (h : ∀ x : Call, x.isIdentityLookup = true ∨ x.isEbpf = true → P x) :
    Emits P (updatePodEbpfOnNode K srv pod) := by
  unfold updatePodEbpfOnNode
  simp only []
  repeat' first
    | exact emits_pure _ _
    | exact emits_perform _ (h _ (Or.inr rfl))
    | exact emits_buildEbpfArgsByIP K _ _ _ (fun x hx => h x (Or.inl hx))
    | refine emits_bind ?_ (fun _ => ?_)
    | split

end Frames

/-- C6: AnnotateUnenrollPod returns success without a patch call exactly when the
enrollment annotation of the workload is not "enabled" (and then changes nothing);
otherwise it issues exactly one patch, on the namespace and name of the workload, with
the body that sets the redirection key to null, and returns the error result of that
patch.  AnnotateEnrolledPod always issues exactly one patch, on the namespace and name of
the workload, whose body sets the redirection key to the enabled value. -/
theorem annotate_patch_calls {σ : Type} (K : Collab σ) (c : Constants) (pod : Pod) (s : σ) :
    ((callsOf (AnnotateUnenrollPod K c pod) s = []
        ∧ resultOf (AnnotateUnenrollPod K c pod) s = none)
      ↔ annotationOf pod c.AmbientRedirection ≠ c.AmbientRedirectionEnabled)
    ∧ runFrom (AnnotateUnenrollPod K c pod) s
        = (if annotationOf pod c.AmbientRedirection = c.AmbientRedirectionEnabled then
            ((K.Patch s pod.Namespace pod.Name
                ("\x7b\"metadata\":\x7b\"annotations\":\x7b\"" ++ c.AmbientRedirection
                  ++ "\":null\x7d\x7d\x7d")).2,
             (K.Patch s pod.Namespace pod.Name
                ("\x7b\"metadata\":\x7b\"annotations\":\x7b\"" ++ c.AmbientRedirection
                  ++ "\":null\x7d\x7d\x7d")).1,
             [Call.Patch pod.Namespace pod.Name
                ("\x7b\"metadata\":\x7b\"annotations\":\x7b\"" ++ c.AmbientRedirection
                  ++ "\":null\x7d\x7d\x7d")])
           else (none, s, []))
    ∧ runFrom (AnnotateEnrolledPod K c pod) s
        = ((K.Patch s pod.Namespace pod.Name
              ("\x7b\"metadata\":\x7b\"annotations\":\x7b\"" ++ c.AmbientRedirection ++ "\":\""
                ++ c.AmbientRedirectionEnabled ++ "\"\x7d\x7d\x7d")).2,
           (K.Patch s pod.Namespace pod.Name
              ("\x7b\"metadata\":\x7b\"annotations\":\x7b\"" ++ c.AmbientRedirection ++ "\":\""
                ++ c.AmbientRedirectionEnabled ++ "\"\x7d\x7d\x7d")).1,
           [Call.Patch pod.Namespace pod.Name
              ("\x7b\"metadata\":\x7b\"annotations\":\x7b\"" ++ c.AmbientRedirection ++ "\":\""
                ++ c.AmbientRedirectionEnabled ++ "\"\x7d\x7d\x7d")]) := by
  by_cases h : annotationOf pod c.AmbientRedirection = c.AmbientRedirectionEnabled
  · simp [callsOf, resultOf, runFrom, AnnotateUnenrollPod, AnnotateEnrolledPod,
      perform, annotationPatch, annotationRemovePatch, h]
  · simp [callsOf, resultOf, runFrom, AnnotateUnenrollPod, AnnotateEnrolledPod,
      perform, annotationPatch, annotationRemovePatch, h, pure, StateT.pure]

/-- C7: Server.AddPodToMesh under EbpfMode issues no ip-set call and no route query, add
or delete; under IptablesMode it issues no request to the eBPF manager. -/
theorem addPodToMesh_mode_isolation {σ : Type} (K : Collab σ) (c : Constants)
    (ebpfServer : Option Unit) (pod : Pod) (s : σ) :
    (∀ call ∈ callsOf (Server.AddPodToMesh K c ⟨.EbpfMode, ebpfServer⟩ pod) s,
        call.isIpset = false ∧ call.isRoute = false)
      ∧ (∀ call ∈ callsOf (Server.AddPodToMesh K c ⟨.IptablesMode, ebpfServer⟩ pod) s,
        call.isEbpf = false) := by
  constructor
  · apply emits_calls
    unfold Server.AddPodToMesh
    refine emits_bind (emits_updatePodEbpfOnNode K _ pod ?_) (fun _ => ?_)
    · intro x hx
      cases x <;> simp_all [Call.isIdentityLookup, Call.isEbpf, Call.isIpset, Call.isRoute]
    · exact emits_bind (emits_AnnotateEnrolledPod K c pod (fun _ _ _ => ⟨rfl, rfl⟩))
        (fun _ => emits_pure _ _)
  · apply emits_calls
    unfold Server.AddPodToMesh
    exact emits_addPodToMeshWithIptables K c pod "" (fun x hx _ => hx)

/-- A run of `RouteExists`: one query, state untouched, an answer that depends on the
state only. -/
theorem run_RouteExists {σ : Type} (K : Collab σ) (rte : List String) (s : σ) (t : List Call) :
    RouteExists K rte (s, t)
      = (resultOf (RouteExists K rte) s,
          (s, t ++ [Call.executeOutput "bash"
                      ["-c", "ip route show " ++ " ".intercalate rte ++ " | wc -l"]])) := by
  simp only [RouteExists, resultOf, runFrom, bind, StateT.bind, observe]
  cases K.executeOutput s "bash" ["-c", "ip route show " ++ " ".intercalate rte ++ " | wc -l"]
    <;> simp [pure, StateT.pure]

/-- C3 (as amended): for a workload that was never enrolled (UID not in the ip-set, the
route query of the code does not report its route, enrollment annotation not "enabled"),
Server.DelPodFromMesh under IptablesMode issues the two queries only (no ip-set delete,
no route delete, no patch) and leaves the state unchanged.  Under EbpfMode nothing
records an earlier redirect: the call issues no ip-set call, no command and no patch,
but it hands a removal request to the eBPF manager exactly when the workload is not
host-network, the manager is configured, and the workload address is non-empty and
parses. -/
theorem unenroll_never_enrolled {σ : Type} (K : Collab σ) (c : Constants)
    (ebpfServer : Option Unit) (pod : Pod) (s : σ)
    (hset : K.IsPodInIpset s pod = false)
    (hroute : resultOf (RouteExists K (routeOrNil (buildRouteFromPod c pod ""))) s = false)
    (hann : annotationOf pod c.AmbientRedirection ≠ c.AmbientRedirectionEnabled) :
    (finalState (Server.DelPodFromMesh K c ⟨.IptablesMode, ebpfServer⟩ pod) s = s
        ∧ callsOf (Server.DelPodFromMesh K c ⟨.IptablesMode, ebpfServer⟩ pod) s
          = [ Call.IsPodInIpset pod,
              Call.executeOutput "bash"
                ["-c", "ip route show "
                  ++ " ".intercalate (routeOrNil (buildRouteFromPod c pod "")) ++ " | wc -l"] ])
      ∧ (∀ call ∈ callsOf (Server.DelPodFromMesh K c ⟨.EbpfMode, ebpfServer⟩ pod) s,
          call.isIpset = false ∧ call.isRoute = false ∧ call.isPatch = false)
      ∧ ((∃ call ∈ callsOf (Server.DelPodFromMesh K c ⟨.EbpfMode, ebpfServer⟩ pod) s,
            call.isEbpf = true)
          ↔ (pod.HostNetwork = false ∧ ebpfServer ≠ none ∧ pod.PodIP ≠ ""
              ∧ ∃ ipAddr, K.ParseAddr pod.PodIP = .ok ipAddr)) := by
  refine ⟨?_, ?_⟩
  · simp [finalState, callsOf, runFrom, Server.DelPodFromMesh, DelPodFromMesh, bind,
      StateT.bind, observe, hset, run_RouteExists, hroute, AnnotateUnenrollPod, hann, pure,
      StateT.pure]
  · cases hh : pod.HostNetwork with
    | true =>
      simp [callsOf, runFrom, Server.DelPodFromMesh, hh, pure, StateT.pure]
    | false =>
      cases he : ebpfServer with
      | none =>
        simp [callsOf, runFrom, Server.DelPodFromMesh, hh, delPodEbpfOnNode, bind,
          StateT.bind, AnnotateUnenrollPod, hann, pure, StateT.pure]
      | some u =>
        by_cases hip : pod.PodIP = ""
        · simp [callsOf, runFrom, Server.DelPodFromMesh, hh, delPodEbpfOnNode, bind,
            StateT.bind, AnnotateUnenrollPod, hann, pure, StateT.pure, hip]
        · cases hp : K.ParseAddr pod.PodIP with
          | error e =>
            simp [callsOf, runFrom, Server.DelPodFromMesh, hh, delPodEbpfOnNode, bind,
              StateT.bind, AnnotateUnenrollPod, hann, pure, StateT.pure, hip, hp]
          | ok ipAddr =>
            simp [callsOf, runFrom, Server.DelPodFromMesh, hh, delPodEbpfOnNode, bind,
              StateT.bind, AnnotateUnenrollPod, hann, pure, StateT.pure, hip, hp, observe,
              perform, Call.isIpset, Call.isRoute, Call.isPatch, Call.isEbpf]

theorem resultOf_RouteExists_ref (c : Constants) (env : NodeEnv) (rte : List String)
    (s : KState) :
    resultOf (RouteExists (refKernel c env) rte) s
      = routeQueryHolds env (" ".intercalate rte) s.routes := by
  simp only [resultOf, runFrom, RouteExists, bind, StateT.bind, observe, refKernel,
    routeQueryHolds, showCommand]
  cases hf : env.faults.routeShow <;> simp [pure, StateT.pure]

theorem run_bind {σ α β : Type} (m : M σ α) (f : α → M σ β) (w : σ × List Call) :
    (m >>= f) w = f (m w).1 (m w).2 := rfl

theorem run_pure {σ α : Type} (a : α) (w : σ × List Call) : (pure a : M σ α) w = (a, w) := rfl

theorem run_observe {σ α : Type} (call : Call) (f : σ → α) (w : σ × List Call) :
    observe call f w = (f w.1, (w.1, w.2 ++ [call])) := rfl

theorem run_perform {σ α : Type} (call : Call) (f : σ → σ × α) (w : σ × List Call) :
    perform call f w = ((f w.1).2, ((f w.1).1, w.2 ++ [call])) := rfl

theorem run_ite {σ α : Type} (p : Prop) [Decidable p] (m₁ m₂ : M σ α) (w : σ × List Call) :
    (if p then m₁ else m₂) w = if p then m₁ w else m₂ w := by
  split <;> rfl

/-- The state after `addPodToMeshWithIptables` for a pod with an address, step by step,
for any collaborators. -/
theorem finalState_addPodToMeshWithIptables {σ : Type} (K : Collab σ) (c : Constants)
    (pod : Pod) (s : σ) (hip : pod.PodIP ≠ "") :
    finalState (addPodToMeshWithIptables K c pod "") s
      = (match K.getDeviceWithDestinationOf
            (if resultOf (RouteExists K (routeOrNil (buildRouteFromPod c pod pod.PodIP)))
                  (if K.IsPodInIpset s pod = true then s
                   else (K.IpsetAddIP s (K.ParseIPTo4 pod.PodIP) pod.UID).1) = true
             then (if K.IsPodInIpset s pod = true then s
                   else (K.IpsetAddIP s (K.ParseIPTo4 pod.PodIP) pod.UID).1)
             else (K.execute
                    (if K.IsPodInIpset s pod = true then s
                     else (K.IpsetAddIP s (K.ParseIPTo4 pod.PodIP) pod.UID).1)
                    "ip" (["route", "add"] ++ routeOrNil (buildRouteFromPod c pod pod.PodIP))).1)
            pod.PodIP with
         | .error _ =>
            (if resultOf (RouteExists K (routeOrNil (buildRouteFromPod c pod pod.PodIP)))
                  (if K.IsPodInIpset s pod = true then s
                   else (K.IpsetAddIP s (K.ParseIPTo4 pod.PodIP) pod.UID).1) = true
             then (if K.IsPodInIpset s pod = true then s
                   else (K.IpsetAddIP s (K.ParseIPTo4 pod.PodIP) pod.UID).1)
             else (K.execute
                    (if K.IsPodInIpset s pod = true then s
                     else (K.IpsetAddIP s (K.ParseIPTo4 pod.PodIP) pod.UID).1)
                    "ip" (["route", "add"] ++ routeOrNil (buildRouteFromPod c pod pod.PodIP))).1)
         | .ok dev =>
            (K.Patch
              (K.WriteFile
                (if resultOf (RouteExists K (routeOrNil (buildRouteFromPod c pod pod.PodIP)))
                      (if K.IsPodInIpset s pod = true then s
                       else (K.IpsetAddIP s (K.ParseIPTo4 pod.PodIP) pod.UID).1) = true
                 then (if K.IsPodInIpset s pod = true then s
                       else (K.IpsetAddIP s (K.ParseIPTo4 pod.PodIP) pod.UID).1)
                 else (K.execute
                        (if K.IsPodInIpset s pod = true then s
                         else (K.IpsetAddIP s (K.ParseIPTo4 pod.PodIP) pod.UID).1)
                        "ip"
                        (["route", "add"] ++ routeOrNil (buildRouteFromPod c pod pod.PodIP))).1)
                ("/proc/sys/net/ipv4/conf/" ++ dev ++ "/rp_filter") "0").1
              pod.Namespace pod.Name (annotationPatch c)).1) := by
  simp only [finalState, runFrom, addPodToMeshWithIptables, if_true, hip, if_false, run_bind,
    run_observe, run_RouteExists, run_ite, run_pure, run_perform]
  cases hset : K.IsPodInIpset s pod <;>
    simp only [Bool.not_false, Bool.not_true, if_true, if_false, Bool.false_eq_true]
  · cases hr : resultOf (RouteExists K (routeOrNil (buildRouteFromPod c pod pod.PodIP)))
      (K.IpsetAddIP s (K.ParseIPTo4 pod.PodIP) pod.UID).1 <;>
    simp only [Bool.not_false, Bool.not_true, if_true, if_false, Bool.false_eq_true]
    · cases K.getDeviceWithDestinationOf _ pod.PodIP <;>
        simp only [run_pure, AnnotateEnrolledPod, SetProc, run_perform, run_bind]
    · cases K.getDeviceWithDestinationOf _ pod.PodIP <;>
        simp only [run_pure, AnnotateEnrolledPod, SetProc, run_perform, run_bind]
  · cases hr : resultOf (RouteExists K (routeOrNil (buildRouteFromPod c pod pod.PodIP))) s <;>
    simp only [Bool.not_false, Bool.not_true, if_true, if_false, Bool.false_eq_true]
    · cases K.getDeviceWithDestinationOf _ pod.PodIP <;>
        simp only [run_pure, AnnotateEnrolledPod, SetProc, run_perform, run_bind]
    · cases K.getDeviceWithDestinationOf _ pod.PodIP <;>
        simp only [run_pure, AnnotateEnrolledPod, SetProc, run_perform, run_bind]

theorem ref_ipset_step (c : Constants) (env : NodeEnv) (pod : Pod) (s : KState) :
    (if (refKernel c env).IsPodInIpset s pod = true then s
      else ((refKernel c env).IpsetAddIP s ((refKernel c env).ParseIPTo4 pod.PodIP) pod.UID).1)
      = { s with ipset := ipsetAfterEnroll env pod s.ipset } := by
  cases s
  simp only [refKernel, ipsetAfterEnroll]
  split_ifs <;> rfl

theorem ref_execute_add (c : Constants) (env : NodeEnv) (rte : List String) (s : KState) :
    (refKernel c env).execute s "ip" (["route", "add"] ++ rte)
      = if env.faults.routeAdd = true ∨ " ".intercalate rte ∈ s.routes then
          (s, some "RTNETLINK answers: File exists")
        else ({ s with routes := " ".intercalate rte :: s.routes }, none) := by
  simp [refKernel]

theorem ref_route_step (c : Constants) (env : NodeEnv) (rte : List String) (s : KState) :
    (if routeQueryHolds env (" ".intercalate rte) s.routes = true then s
      else ((refKernel c env).execute s "ip" (["route", "add"] ++ rte)).1)
      = { s with routes := routesAfterEnroll env (" ".intercalate rte) s.routes } := by
  rw [ref_execute_add]
  cases s
  simp only [routesAfterEnroll]
  split_ifs <;> rfl

theorem ref_device (c : Constants) (env : NodeEnv) (s : KState) (ip : String) :
    (refKernel c env).getDeviceWithDestinationOf s ip
      = lookupOr env.devices ip "no device" := rfl

theorem ref_proc_patch_step (c : Constants) (env : NodeEnv) (pod : Pod) (path : String)
    (s : KState) :
    ((refKernel c env).Patch ((refKernel c env).WriteFile s path "0").1 pod.Namespace pod.Name
        (annotationPatch c)).1
      = { s with
          procFiles := if env.faults.writeFile = true then s.procFiles
                       else assocSet path "0" s.procFiles
          annotations := if env.faults.patch = true then s.annotations
                         else assocSet (pod.Namespace, pod.Name) c.AmbientRedirectionEnabled
                                s.annotations } := by
  cases s
  simp only [refKernel]
  split_ifs <;> rfl

theorem finalState_enroll_ref (c : Constants) (env : NodeEnv) (pod : Pod) (s : KState)
    (hip : pod.PodIP ≠ "") :
    finalState (addPodToMeshWithIptables (refKernel c env) c pod "") s
      = enrolledState c env pod s := by
  rw [finalState_addPodToMeshWithIptables _ _ _ _ hip]
  simp only [resultOf_RouteExists_ref, ref_ipset_step, ref_device]
  have hr := ref_route_step c env (routeOrNil (buildRouteFromPod c pod pod.PodIP))
    { s with ipset := ipsetAfterEnroll env pod s.ipset }
  simp only [] at hr
  simp only [hr, ref_proc_patch_step, enrolledState, lookupOr]
  cases env.devices.lookup pod.PodIP <;> rfl

theorem showCommand_injective {a b : String} (h : showCommand a = showCommand b) : a = b := by
  simp only [showCommand, String.ext_iff, String.data_append] at h
  exact String.ext (List.append_cancel_left (List.append_cancel_right h))

theorem assocSet_idem {κ ν : Type} [DecidableEq κ] (k : κ) (v : ν) (l : List (κ × ν)) :
    assocSet k v (assocSet k v l) = assocSet k v l := by
  simp [assocSet, List.filter_filter]

theorem ipsetAfterEnroll_member (env : NodeEnv) (pod : Pod) (l : List (String × IP))
    (h : l.any (fun e => e.1 == pod.UID) = true
          ∨ ¬ (env.faults.ipsetAdd = true ∨ (parseIPv4 pod.PodIP).length ≠ 4
                ∨ parseIPv4 pod.PodIP ∈ l.map Prod.snd)) :
    (ipsetAfterEnroll env pod l).any (fun e => e.1 == pod.UID) = true := by
  unfold ipsetAfterEnroll
  by_cases h₁ : l.any (fun e => e.1 == pod.UID) = true
  · simp only [h₁, if_true]
  · rcases h with h | h
    · exact absurd h h₁
    · simp only [h₁, h, if_false, Bool.false_eq_true]
      simp

theorem ipsetAfterEnroll_idem (env : NodeEnv) (pod : Pod) (l : List (String × IP)) :
    ipsetAfterEnroll env pod (ipsetAfterEnroll env pod l) = ipsetAfterEnroll env pod l := by
  by_cases h₁ : l.any (fun e => e.1 == pod.UID) = true
  · have : ipsetAfterEnroll env pod l = l := by simp only [ipsetAfterEnroll, h₁, if_true]
    rw [this, this]
  · by_cases h₂ : env.faults.ipsetAdd = true ∨ (parseIPv4 pod.PodIP).length ≠ 4
        ∨ parseIPv4 pod.PodIP ∈ l.map Prod.snd
    · have : ipsetAfterEnroll env pod l = l := by
        simp only [ipsetAfterEnroll, h₁, h₂, if_true, if_false, Bool.false_eq_true]
      rw [this, this]
    · have hm := ipsetAfterEnroll_member env pod l (Or.inr h₂)
      generalize ipsetAfterEnroll env pod l = l' at hm
      simp only [ipsetAfterEnroll, hm, if_true]

theorem routeQueryHolds_after_add (env : NodeEnv) (key : String) (routes : List String)
    (hshow : env.faults.routeShow = false) (hnew : key ∉ routes) :
    routeQueryHolds env key (key :: routes) = true := by
  have hnone : routes.filter (fun k => showCommand k = showCommand key) = [] := by
    rw [List.filter_eq_nil_iff]
    intro k hk
    have : k ≠ key := fun h => hnew (h ▸ hk)
    simpa using fun h => this (showCommand_injective h)
  have h1 : toString (1 : Nat) = "1" := by decide
  simp [routeQueryHolds, hshow, hnone, h1]

theorem routesAfterEnroll_query (env : NodeEnv) (key : String) (routes : List String)
    (h : routeQueryHolds env key routes = true
          ∨ (env.faults.routeShow = false ∧ ¬ (env.faults.routeAdd = true ∨ key ∈ routes))) :
    routeQueryHolds env key (routesAfterEnroll env key routes) = true := by
  unfold routesAfterEnroll
  by_cases h₁ : routeQueryHolds env key routes = true
  · simp only [h₁, if_true]
  · rcases h with h | ⟨hshow, hadd⟩
    · exact absurd h h₁
    · simp only [h₁, hadd, if_false, Bool.false_eq_true]
      exact routeQueryHolds_after_add env key routes hshow (fun hk => hadd (Or.inr hk))

theorem routesAfterEnroll_idem (env : NodeEnv) (key : String) (routes : List String) :
    routesAfterEnroll env key (routesAfterEnroll env key routes)
      = routesAfterEnroll env key routes := by
  by_cases h₁ : routeQueryHolds env key routes = true
  · have : routesAfterEnroll env key routes = routes := by
      simp only [routesAfterEnroll, h₁, if_true]
    rw [this, this]
  · by_cases h₂ : env.faults.routeAdd = true ∨ key ∈ routes
    · have : routesAfterEnroll env key routes = routes := by
        simp only [routesAfterEnroll, h₁, h₂, if_true, if_false, Bool.false_eq_true]
      rw [this, this]
    · have : routesAfterEnroll env key routes = key :: routes := by
        simp only [routesAfterEnroll, h₁, h₂, if_false, Bool.false_eq_true]
      rw [this]
      unfold routesAfterEnroll
      split_ifs <;> simp_all

theorem enrolledState_idem (c : Constants) (env : NodeEnv) (pod : Pod) (s : KState) :
    enrolledState c env pod (enrolledState c env pod s) = enrolledState c env pod s := by
  unfold enrolledState
  cases env.devices.lookup pod.PodIP with
  | none => simp only [ipsetAfterEnroll_idem, routesAfterEnroll_idem]
  | some dev =>
    simp only [ipsetAfterEnroll_idem, routesAfterEnroll_idem]
    cases env.faults.writeFile <;> cases env.faults.patch <;>
      simp [assocSet_idem]

theorem keeps_pure {σ α β : Type} (g : σ → β) (a : α) : Keeps g (pure a : M σ α) :=
  fun _ => rfl

theorem keeps_bind {σ α β γ : Type} {g : σ → γ} {m : M σ α} {f : α → M σ β}
    (hm : Keeps g m) (hf : ∀ a, Keeps g (f a)) : Keeps g (m >>= f) := by
  intro w
  show g (f (m w).1 (m w).2).2.1 = g w.1
  rw [hf (m w).1 (m w).2, hm w]

theorem keeps_observe {σ α β : Type} (g : σ → β) (call : Call) (f : σ → α) :
    Keeps g (observe call f) :=
  fun _ => rfl

theorem keeps_perform {σ α β : Type} {g : σ → β} (call : Call) (f : σ → σ × α)
    (h : ∀ s, g (f s).1 = g s) : Keeps g (perform call f) :=
  fun w => h w.1

theorem keeps_buildEbpfArgsByIP {σ β : Type} (K : Collab σ) (g : σ → β) (ip : String)
    (z r : Bool) : Keeps g (buildEbpfArgsByIP K ip z r) := by
  unfold buildEbpfArgsByIP
  repeat' first
    | exact keeps_pure _ _
    | exact keeps_observe _ _ _
    | refine keeps_bind ?_ (fun _ => ?_)
    | split

/-- On the reference node the eBPF enroll step changes nothing of the named state. -/
theorem keeps_updatePodEbpfOnNode_ref (c : Constants) (env : NodeEnv) (srv : Server)
    (pod : Pod) : Keeps KState.named (updatePodEbpfOnNode (refKernel c env) srv pod) := by
  unfold updatePodEbpfOnNode
  simp only []
  repeat' first
    | exact keeps_pure _ _
    | exact keeps_buildEbpfArgsByIP _ _ _ _ _
    | exact keeps_perform _ _ (fun _ => rfl)
    | refine keeps_bind ?_ (fun _ => ?_)
    | split

theorem ref_patch_named (c : Constants) (env : NodeEnv) (pod : Pod) (s : KState) :
    ((refKernel c env).Patch s pod.Namespace pod.Name (annotationPatch c)).1.named
      = (s.named.1, s.named.2.1, s.named.2.2.1,
          if env.faults.patch = true then s.named.2.2.2
          else assocSet (pod.Namespace, pod.Name) c.AmbientRedirectionEnabled s.named.2.2.2) := by
  simp only [refKernel, KState.named]
  split_ifs <;> rfl

theorem named_enroll_ebpf_ref (c : Constants) (env : NodeEnv) (e : Option Unit) (pod : Pod)
    (s : KState) :
    (finalState (Server.AddPodToMesh (refKernel c env) c ⟨.EbpfMode, e⟩ pod) s).named
      = (s.named.1, s.named.2.1, s.named.2.2.1,
          if env.faults.patch = true then s.named.2.2.2
          else assocSet (pod.Namespace, pod.Name) c.AmbientRedirectionEnabled s.named.2.2.2) := by
  have hk := keeps_updatePodEbpfOnNode_ref c env ⟨.EbpfMode, e⟩ pod (s, [])
  simp only [finalState, runFrom, Server.AddPodToMesh, run_bind, AnnotateEnrolledPod,
    run_perform, run_pure, ref_patch_named, hk]

/-- When the pod is in the ip-set no ip-set add is issued; when the route query reports
the route no route add is issued. -/
theorem calls_addPodToMeshWithIptables_no_add {σ : Type} (K : Collab σ) (c : Constants)
    (pod : Pod) (s : σ) :
    (K.IsPodInIpset s pod = true →
        ∀ call ∈ callsOf (addPodToMeshWithIptables K c pod "") s, call.isIpsetAdd = false)
      ∧ (resultOf (RouteExists K (routeOrNil (buildRouteFromPod c pod pod.PodIP)))
            (if K.IsPodInIpset s pod = true then s
             else (K.IpsetAddIP s (K.ParseIPTo4 pod.PodIP) pod.UID).1) = true →
          ∀ call ∈ callsOf (addPodToMeshWithIptables K c pod "") s, call.isRouteAdd = false) := by
  by_cases hip : pod.PodIP = ""
  · simp [callsOf, runFrom, addPodToMeshWithIptables, hip, run_pure]
  · simp only [callsOf, runFrom, addPodToMeshWithIptables, if_true, hip, if_false, run_bind,
      run_observe, run_RouteExists, run_ite, run_pure, run_perform]
    cases hset : K.IsPodInIpset s pod <;>
      simp only [Bool.not_false, Bool.not_true, if_true, if_false, Bool.false_eq_true]
    · cases hr : resultOf (RouteExists K (routeOrNil (buildRouteFromPod c pod pod.PodIP)))
        (K.IpsetAddIP s (K.ParseIPTo4 pod.PodIP) pod.UID).1 <;>
      simp only [Bool.not_false, Bool.not_true, if_true, if_false, Bool.false_eq_true]
      · simp
      · cases K.getDeviceWithDestinationOf _ pod.PodIP <;>
          simp only [run_pure, AnnotateEnrolledPod, SetProc, run_perform, run_bind] <;>
          simp [Call.isRouteAdd]
    · cases hr : resultOf (RouteExists K (routeOrNil (buildRouteFromPod c pod pod.PodIP))) s <;>
      simp only [Bool.not_false, Bool.not_true, if_true, if_false, Bool.false_eq_true]
      · cases K.getDeviceWithDestinationOf _ pod.PodIP <;>
          simp only [run_pure, AnnotateEnrolledPod, SetProc, run_perform, run_bind] <;>
          simp [Call.isIpsetAdd]
      · cases K.getDeviceWithDestinationOf _ pod.PodIP <;>
          simp only [run_pure, AnnotateEnrolledPod, SetProc, run_perform, run_bind] <;>
          simp [Call.isIpsetAdd, Call.isRouteAdd]

/-- Under EbpfMode the enroll path issues no ip-set call and no command. -/
theorem calls_enroll_ebpf {σ : Type} (K : Collab σ) (c : Constants)
    (ebpfServer : Option Unit) (pod : Pod) (s : σ) :
    ∀ call ∈ callsOf (Server.AddPodToMesh K c ⟨.EbpfMode, ebpfServer⟩ pod) s,
      call.isIpset = false ∧ call.isRoute = false := by
  apply emits_calls
  unfold Server.AddPodToMesh
  refine emits_bind (emits_updatePodEbpfOnNode K _ pod ?_) (fun _ => ?_)
  · intro x hx
    cases x <;> simp_all [Call.isIdentityLookup, Call.isEbpf, Call.isIpset, Call.isRoute]
  · exact emits_bind (emits_AnnotateEnrolledPod K c pod (fun _ _ _ => ⟨rfl, rfl⟩))
      (fun _ => emits_pure _ _)

/-- C2 (as amended): on the reference node, for every workload, mode, fault set and
starting state, calling Server.AddPodToMesh twice leaves the ip-set, the route table, the
rp_filter settings and the enrollment annotation exactly as calling it once.  The second
call issues no ip-set add when the UID was in the ip-set or the ip-set add of the first
call succeeded, and no route add when the route was reported or the route add of the
first call succeeded and the route query does not fail. -/
theorem enroll_twice_reference (c : Constants) (env : NodeEnv) (srv : Server) (pod : Pod)
    (s : KState) :
    (finalState (Server.AddPodToMesh (refKernel c env) c srv pod)
        (finalState (Server.AddPodToMesh (refKernel c env) c srv pod) s)).named
        = (finalState (Server.AddPodToMesh (refKernel c env) c srv pod) s).named
      ∧ (((refKernel c env).IsPodInIpset s pod = true
            ∨ ((refKernel c env).IpsetAddIP s ((refKernel c env).ParseIPTo4 pod.PodIP)
                  pod.UID).2 = none) →
          ∀ call ∈ callsOf (Server.AddPodToMesh (refKernel c env) c srv pod)
              (finalState (Server.AddPodToMesh (refKernel c env) c srv pod) s),
            call.isIpsetAdd = false)
      ∧ ((resultOf (RouteExists (refKernel c env)
                (routeOrNil (buildRouteFromPod c pod pod.PodIP))) s = true
            ∨ (env.faults.routeShow = false
                ∧ ((refKernel c env).execute s "ip"
                    (["route", "add"] ++ routeOrNil (buildRouteFromPod c pod pod.PodIP))).2
                  = none)) →
          ∀ call ∈ callsOf (Server.AddPodToMesh (refKernel c env) c srv pod)
              (finalState (Server.AddPodToMesh (refKernel c env) c srv pod) s),
            call.isRouteAdd = false) := by
  obtain ⟨mode, e⟩ := srv
  cases mode with
  | EbpfMode =>
    refine ⟨?_, ?_, ?_⟩
    · simp only [named_enroll_ebpf_ref]
      split_ifs <;> simp [assocSet_idem]
    · intro _
      exact fun call h => ((calls_enroll_ebpf (refKernel c env) c e pod _) call h)
        |> fun hh => by cases call <;> simp_all [Call.isIpset, Call.isIpsetAdd]
    · intro _
      exact fun call h => ((calls_enroll_ebpf (refKernel c env) c e pod _) call h)
        |> fun hh => by cases call <;> simp_all [Call.isRoute, Call.isRouteAdd]
  | IptablesMode =>
    have hE : Server.AddPodToMesh (refKernel c env) c ⟨.IptablesMode, e⟩ pod
        = addPodToMeshWithIptables (refKernel c env) c pod "" := rfl
    rw [hE]
    by_cases hip : pod.PodIP = ""
    · have h0 : ∀ s', runFrom (addPodToMeshWithIptables (refKernel c env) c pod "") s'
          = ((), s', []) := by
        intro s'
        simp [runFrom, addPodToMeshWithIptables, hip, run_pure]
      simp [finalState, callsOf, h0]
    · simp only [finalState_enroll_ref c env pod _ hip, enrolledState_idem, true_and]
      have hsame : ∀ x : KState, (enrolledState c env pod x).routes
          = routesAfterEnroll env
              (" ".intercalate (routeOrNil (buildRouteFromPod c pod pod.PodIP))) x.routes := by
        intro x
        unfold enrolledState
        cases env.devices.lookup pod.PodIP <;> rfl
      have hsameI : ∀ x : KState, (enrolledState c env pod x).ipset
          = ipsetAfterEnroll env pod x.ipset := by
        intro x
        unfold enrolledState
        cases env.devices.lookup pod.PodIP <;> rfl
      constructor
      · intro hA
        refine (calls_addPodToMeshWithIptables_no_add (refKernel c env) c pod _).1 ?_
        show ((enrolledState c env pod s).ipset.any fun e => e.1 == pod.UID) = true
        rw [hsameI]
        apply ipsetAfterEnroll_member
        rcases hA with hA | hA
        · exact Or.inl hA
        · right
          intro hfail
          have : ((refKernel c env).IpsetAddIP s ((refKernel c env).ParseIPTo4 pod.PodIP)
              pod.UID).2 = some "ipset add failed" := by
            simp only [refKernel]
            rw [if_pos hfail]
          rw [this] at hA
          cases hA
      · intro hB
        refine (calls_addPodToMeshWithIptables_no_add (refKernel c env) c pod _).2 ?_
        rw [ref_ipset_step, resultOf_RouteExists_ref]
        show routeQueryHolds env _ (enrolledState c env pod s).routes = true
        rw [hsame]
        apply routesAfterEnroll_query
        rcases hB with hB | ⟨hshow, hB⟩
        · left
          rwa [resultOf_RouteExists_ref] at hB
        · right
          refine ⟨hshow, fun hfail => ?_⟩
          rw [ref_execute_add, if_pos hfail] at hB
          cases hB

theorem enroll_twice_reference_witness :
    (finalState (Server.AddPodToMesh
          (refKernel (exampleConstants "10.0.0.1") { devices := [("10.1.2.7", "veth1")] })
          (exampleConstants "10.0.0.1") ⟨.IptablesMode, none⟩ examplePod)
        (finalState (Server.AddPodToMesh
          (refKernel (exampleConstants "10.0.0.1") { devices := [("10.1.2.7", "veth1")] })
          (exampleConstants "10.0.0.1") ⟨.IptablesMode, none⟩ examplePod) {})).named
        = (finalState (Server.AddPodToMesh
          (refKernel (exampleConstants "10.0.0.1") { devices := [("10.1.2.7", "veth1")] })
          (exampleConstants "10.0.0.1") ⟨.IptablesMode, none⟩ examplePod) {}).named
      ∧ (∀ call ∈ callsOf (Server.AddPodToMesh
            (refKernel (exampleConstants "10.0.0.1") { devices := [("10.1.2.7", "veth1")] })
            (exampleConstants "10.0.0.1") ⟨.IptablesMode, none⟩ examplePod)
          (finalState (Server.AddPodToMesh
            (refKernel (exampleConstants "10.0.0.1") { devices := [("10.1.2.7", "veth1")] })
            (exampleConstants "10.0.0.1") ⟨.IptablesMode, none⟩ examplePod) {}),
          call.isIpsetAdd = false)
      ∧ (∀ call ∈ callsOf (Server.AddPodToMesh
            (refKernel (exampleConstants "10.0.0.1") { devices := [("10.1.2.7", "veth1")] })
            (exampleConstants "10.0.0.1") ⟨.IptablesMode, none⟩ examplePod)
          (finalState (Server.AddPodToMesh
            (refKernel (exampleConstants "10.0.0.1") { devices := [("10.1.2.7", "veth1")] })
            (exampleConstants "10.0.0.1") ⟨.IptablesMode, none⟩ examplePod) {}),
          call.isRouteAdd = false) :=
  ⟨(enroll_twice_reference _ _ _ _ _).1,
   (enroll_twice_reference _ _ _ _ _).2.1 (Or.inr (by decide)),
   (enroll_twice_reference _ _ _ _ _).2.2 (Or.inr ⟨rfl, by decide⟩)⟩

/-- C2 fails as stated: when the ip-set add fails (here the fault of the reference
node), the pod is still not in the ip-set after the first call, and the second call
issues the ip-set add again. -/
theorem enroll_twice_repeats_failed_add :
    Call.IpsetAddIP [10, 1, 2, 7] "uid-1"
      ∈ callsOf (Server.AddPodToMesh
          (refKernel (exampleConstants "10.0.0.1") { faults := { ipsetAdd := true } })
          (exampleConstants "10.0.0.1") ⟨.IptablesMode, none⟩ examplePod)
        (finalState (Server.AddPodToMesh
          (refKernel (exampleConstants "10.0.0.1") { faults := { ipsetAdd := true } })
          (exampleConstants "10.0.0.1") ⟨.IptablesMode, none⟩ examplePod) {}) := by
  decide

theorem unenroll_never_enrolled_witness :
    finalState (Server.DelPodFromMesh (refKernel (exampleConstants "10.0.0.1") {})
        (exampleConstants "10.0.0.1") ⟨.IptablesMode, none⟩ examplePod) ({} : KState) = {}
      ∧ callsOf (Server.DelPodFromMesh (refKernel (exampleConstants "10.0.0.1") {})
        (exampleConstants "10.0.0.1") ⟨.IptablesMode, none⟩ examplePod) ({} : KState)
        = [ Call.IsPodInIpset examplePod,
            Call.executeOutput "bash"
              ["-c", "ip route show "
                ++ " ".intercalate
                    (routeOrNil (buildRouteFromPod (exampleConstants "10.0.0.1") examplePod ""))
                ++ " | wc -l"] ] :=
  (unenroll_never_enrolled (refKernel (exampleConstants "10.0.0.1") {})
    (exampleConstants "10.0.0.1") none examplePod {} (by decide) (by decide) (by decide)).1

/-- C3 fails as stated under EbpfMode: the example workload was never enrolled (empty
ip-set, no route, no annotation, nothing submitted), yet Server.DelPodFromMesh hands a
removal request to the eBPF manager and the state changes. -/
theorem unenroll_ebpf_submits_removal :
    (refKernel (exampleConstants "10.0.0.1") {}).IsPodInIpset {} examplePod = false
      ∧ resultOf (RouteExists (refKernel (exampleConstants "10.0.0.1") {})
          (routeOrNil (buildRouteFromPod (exampleConstants "10.0.0.1") examplePod "")))
          ({} : KState) = false
      ∧ annotationOf examplePod "ambient.istio.io/redirection" ≠ "enabled"
      ∧ ({} : KState).submitted = []
      ∧ callsOf (Server.DelPodFromMesh (refKernel (exampleConstants "10.0.0.1") {})
          (exampleConstants "10.0.0.1") ⟨.EbpfMode, some ()⟩ examplePod) ({} : KState)
        = [ Call.getVethWithDestinationOf "10.1.2.7",
            Call.AcceptRequest { IPAddrs := [⟨[10, 1, 2, 7]⟩], Ifindex := 0, Remove := true } ]
      ∧ finalState (Server.DelPodFromMesh (refKernel (exampleConstants "10.0.0.1") {})
          (exampleConstants "10.0.0.1") ⟨.EbpfMode, some ()⟩ examplePod) ({} : KState)
        ≠ {} := by
  decide

/-- C4, the failing run: under IptablesMode, for a workload without an address whose UID
is in the ip-set, Server.DelPodFromMesh issues an ip-set delete (with the nil address)
and then the route query with no route arguments; on the same node and workload
Server.AddPodToMesh issues no call at all. -/
theorem unenroll_no_ip_deletes_from_ipset :
    callsOf (Server.DelPodFromMesh (refKernel (exampleConstants "10.0.0.1") {})
        (exampleConstants "10.0.0.1") ⟨.IptablesMode, none⟩ { examplePod with PodIP := "" })
        ({ ipset := [("uid-1", [10, 1, 2, 7])] } : KState)
      = [ Call.IsPodInIpset { examplePod with PodIP := "" },
          Call.IpsetDeleteIP [],
          Call.executeOutput "bash" ["-c", "ip route show  | wc -l"] ]
      ∧ callsOf (Server.AddPodToMesh (refKernel (exampleConstants "10.0.0.1") {})
        (exampleConstants "10.0.0.1") ⟨.IptablesMode, none⟩ { examplePod with PodIP := "" })
        ({ ipset := [("uid-1", [10, 1, 2, 7])] } : KState) = [] := by
  decide

/-- C5, the failing run: under IptablesMode, when no host device is found for the
address of the workload, Server.AddPodToMesh adds the ip-set entry and the route and then
returns: no proc write, no annotation patch, and the enrollment key is not set.  When
instead the ip-set add, the route add and the proc write all fail and the device is
found, the patch is issued. -/
theorem enroll_device_failure_skips_patch :
    callsOf (Server.AddPodToMesh (refKernel (exampleConstants "10.0.0.1") {})
        (exampleConstants "10.0.0.1") ⟨.IptablesMode, none⟩ examplePod) ({} : KState)
      = [ Call.IsPodInIpset examplePod,
          Call.IpsetAddIP [10, 1, 2, 7] "uid-1",
          Call.executeOutput "bash"
            ["-c", "ip route show table 100 10.1.2.7/32 via 169.254.7.127 dev istioin src 10.0.0.1 | wc -l"],
          Call.execute "ip"
            ["route", "add", "table", "100", "10.1.2.7/32", "via", "169.254.7.127", "dev",
              "istioin", "src", "10.0.0.1"],
          Call.getDeviceWithDestinationOf "10.1.2.7" ]
      ∧ finalState (Server.AddPodToMesh (refKernel (exampleConstants "10.0.0.1") {})
        (exampleConstants "10.0.0.1") ⟨.IptablesMode, none⟩ examplePod) ({} : KState)
        = { ipset := [("uid-1", [10, 1, 2, 7])],
            routes := ["table 100 10.1.2.7/32 via 169.254.7.127 dev istioin src 10.0.0.1"] }
      ∧ finalState (Server.AddPodToMesh
          (refKernel (exampleConstants "10.0.0.1")
            { faults := { ipsetAdd := true, routeAdd := true, writeFile := true },
              devices := [("10.1.2.7", "veth1")] })
          (exampleConstants "10.0.0.1") ⟨.IptablesMode, none⟩ examplePod) ({} : KState)
        = { annotations := [(("default", "app-1"), "enabled")] } := by
  decide

/-- C8: under EbpfMode, Server.DelPodFromMesh on a host-network workload issues no
collaborator call at all (no eBPF request, no identity lookup, no patch) and leaves the
state as it was. -/
theorem delPodFromMesh_hostNetwork_skip {σ : Type} (K : Collab σ) (c : Constants)
    (ebpfServer : Option Unit) (pod : Pod) (s : σ) (hhost : pod.HostNetwork = true) :
    callsOf (Server.DelPodFromMesh K c ⟨.EbpfMode, ebpfServer⟩ pod) s = []
      ∧ finalState (Server.DelPodFromMesh K c ⟨.EbpfMode, ebpfServer⟩ pod) s = s := by
  simp [callsOf, finalState, runFrom, Server.DelPodFromMesh, hhost, pure, StateT.pure]

theorem delPodFromMesh_hostNetwork_skip_witness :
    callsOf (Server.DelPodFromMesh (refKernel (exampleConstants "10.0.0.1") {})
        (exampleConstants "10.0.0.1") ⟨.EbpfMode, some ()⟩
        { examplePod with HostNetwork := true,
                          Annotations := [("ambient.istio.io/redirection", "enabled")] })
        ({} : KState) = []
      ∧ finalState (Server.DelPodFromMesh (refKernel (exampleConstants "10.0.0.1") {})
        (exampleConstants "10.0.0.1") ⟨.EbpfMode, some ()⟩
        { examplePod with HostNetwork := true,
                          Annotations := [("ambient.istio.io/redirection", "enabled")] })
        ({} : KState) = {} :=
  delPodFromMesh_hostNetwork_skip _ _ _ _ _ rfl

/-- C9: with no eBPF manager configured (nil), each of updateZtunnelEbpfOnNode,
delZtunnelEbpfOnNode, updatePodEbpfOnNode and delPodEbpfOnNode returns the error
"uninitialized ebpf server" at once: no identity lookup, no descriptor submitted, no
other call, state unchanged. -/
theorem ebpf_ops_uninitialized {σ : Type} (K : Collab σ) (mode : RedirectMode) (pod : Pod)
    (captureDNS : Bool) (ip : String) (s : σ) :
    runFrom (updateZtunnelEbpfOnNode K ⟨mode, none⟩ pod captureDNS) s
        = (some "uninitialized ebpf server", s, [])
      ∧ runFrom (delZtunnelEbpfOnNode K ⟨mode, none⟩) s
        = (some "uninitialized ebpf server", s, [])
      ∧ runFrom (updatePodEbpfOnNode K ⟨mode, none⟩ pod) s
        = (some "uninitialized ebpf server", s, [])
      ∧ runFrom (delPodEbpfOnNode K ⟨mode, none⟩ ip) s
        = (some "uninitialized ebpf server", s, []) := by
  simp [runFrom, updateZtunnelEbpfOnNode, delZtunnelEbpfOnNode, updatePodEbpfOnNode,
    delPodEbpfOnNode, pure, StateT.pure]

theorem run_buildEbpfArgsByIP {σ : Type} (K : Collab σ) (ip : String) (z r : Bool) (s : σ) (t : List Call) :
    buildEbpfArgsByIP K ip z r (s, t) =
      match K.ParseAddr ip with
      | .error e => (.error ("failed to parse ip(" ++ ip ++ "): " ++ e), (s, t))
      | .ok ipAddr =>
        match K.getVethWithDestinationOf s ip with
        | .error e => (.error ("failed to get device: " ++ e), (s, t ++ [.getVethWithDestinationOf ip]))
        | .ok veth =>
          match K.getPeerIndex s veth with
          | .error e => (.error ("failed to get veth peerIndex: " ++ e),
              (s, t ++ [.getVethWithDestinationOf ip, .getPeerIndex veth]))
          | .ok peerIndex =>
            match K.getNsNameFromNsID s veth.NetNsID with
            | .error e => (.error ("failed to get ns name: " ++ e),
                (s, t ++ [.getVethWithDestinationOf ip, .getPeerIndex veth,
                  .getNsNameFromNsID veth.NetNsID]))
            | .ok peerNs =>
              match K.getMacFromNsIdx s peerNs peerIndex with
              | .error e => (.error e,
                  (s, t ++ [.getVethWithDestinationOf ip, .getPeerIndex veth,
                    .getNsNameFromNsID veth.NetNsID, .getMacFromNsIdx peerNs peerIndex]))
              | .ok mac =>
                (.ok { IPAddrs := [ipAddr], MacAddr := mac, Ifindex := veth.Index,
                       PeerIndex := peerIndex, PeerNs := peerNs, IsZtunnel := z, Remove := r },
                  (s, t ++ [.getVethWithDestinationOf ip, .getPeerIndex veth,
                    .getNsNameFromNsID veth.NetNsID, .getMacFromNsIdx peerNs peerIndex])) := by
  unfold buildEbpfArgsByIP
  cases hp : K.ParseAddr ip with
  | error e => rfl
  | ok a =>
    cases hv : K.getVethWithDestinationOf s ip with
    | error e => simp [bind, StateT.bind, observe, hv, pure, StateT.pure]
    | ok veth =>
      cases hi : K.getPeerIndex s veth with
      | error e => simp [bind, StateT.bind, observe, hv, hi, pure, StateT.pure]
      | ok idx =>
        cases hn : K.getNsNameFromNsID s veth.NetNsID with
        | error e => simp [bind, StateT.bind, observe, hv, hi, hn, pure, StateT.pure]
        | ok ns =>
          cases hm : K.getMacFromNsIdx s ns idx with
          | error e => simp [bind, StateT.bind, observe, hv, hi, hn, hm, pure, StateT.pure]
          | ok mac => simp [bind, StateT.bind, observe, hv, hi, hn, hm, pure, StateT.pure]


/-- What `buildEbpfArgsByIP` returns, against the resolution chain: state untouched, no
request to the eBPF manager, a descriptor exactly when the identity resolves, and then
one that carries it. -/
theorem buildEbpfArgsByIP_resolve {σ : Type} (K : Collab σ) (ip : String) (z r : Bool) (s : σ)
    (t : List Call) :
    (buildEbpfArgsByIP K ip z r (s, t)).2.1 = s
      ∧ (∃ l, (buildEbpfArgsByIP K ip z r (s, t)).2.2 = t ++ l ∧ ∀ x ∈ l, x.isEbpf = false)
      ∧ (∀ args, (buildEbpfArgsByIP K ip z r (s, t)).1 = .ok args →
          ∃ id, ResolveForIP K s ip = some id ∧ CarriesIdentity args id)
      ∧ (∀ e, (buildEbpfArgsByIP K ip z r (s, t)).1 = .error e → ResolveForIP K s ip = none) := by
  rw [run_buildEbpfArgsByIP]
  unfold ResolveForIP
  cases hp : K.ParseAddr ip with
  | error e => simp
  | ok a =>
    cases hv : K.getVethWithDestinationOf s ip with
    | error e => simp [Call.isEbpf]
    | ok veth =>
      cases hi : K.getPeerIndex s veth with
      | error e => simp [hi, Call.isEbpf]
      | ok idx =>
        cases hn : K.getNsNameFromNsID s veth.NetNsID with
        | error e => simp [hi, hn, Call.isEbpf]
        | ok ns =>
          cases hm : K.getMacFromNsIdx s ns idx with
          | error e => simp [hi, hn, hm, Call.isEbpf]
          | ok mac =>
            simp only [hi, hn, hm]
            refine ⟨trivial, ⟨_, rfl, by simp [Call.isEbpf]⟩, ?_, by simp⟩
            intro args h
            simp only [Except.ok.injEq] at h
            subst h
            exact ⟨_, rfl, rfl, rfl, rfl, rfl, rfl⟩

/-- The run of `updatePodEbpfOnNode` with a configured manager and a non-empty address,
in terms of the run of `buildEbpfArgsByIP`. -/
theorem run_updatePodEbpfOnNode {σ : Type} (K : Collab σ) (mode : RedirectMode) (pod : Pod)
    (s : σ) (hip : pod.PodIP ≠ "") :
    runFrom (updatePodEbpfOnNode K ⟨mode, some ()⟩ pod) s
      = (match (buildEbpfArgsByIP K pod.PodIP false false (s, [])).1 with
         | .error e => (some e, (buildEbpfArgsByIP K pod.PodIP false false (s, [])).2)
         | .ok args =>
           (none,
            (K.AcceptRequest (buildEbpfArgsByIP K pod.PodIP false false (s, [])).2.1 args,
             (buildEbpfArgsByIP K pod.PodIP false false (s, [])).2.2
               ++ [Call.AcceptRequest args]))) := by
  simp only [runFrom, updatePodEbpfOnNode, hip, bind, StateT.bind, if_false, reduceCtorEq]
  rcases hb : buildEbpfArgsByIP K pod.PodIP false false (s, []) with ⟨r, s', t'⟩
  cases r <;> simp [perform, pure, StateT.pure, StateT.bind]

/-- The run of `updateZtunnelEbpfOnNode` with a configured manager, in terms of the run
of `buildEbpfArgsByIP`. -/
theorem run_updateZtunnelEbpfOnNode {σ : Type} (K : Collab σ) (mode : RedirectMode) (pod : Pod)
    (captureDNS : Bool) (s : σ) :
    runFrom (updateZtunnelEbpfOnNode K ⟨mode, some ()⟩ pod captureDNS) s
      = (match (buildEbpfArgsByIP K pod.PodIP true false (s, [])).1 with
         | .error e => (some e, (buildEbpfArgsByIP K pod.PodIP true false (s, [])).2)
         | .ok args =>
           (none,
            (K.AcceptRequest (buildEbpfArgsByIP K pod.PodIP true false (s, [])).2.1
                { args with CaptureDNS := captureDNS },
             (buildEbpfArgsByIP K pod.PodIP true false (s, [])).2.2
               ++ [Call.AcceptRequest { args with CaptureDNS := captureDNS }]))) := by
  simp only [runFrom, updateZtunnelEbpfOnNode, bind, StateT.bind, if_false, reduceCtorEq]
  rcases hb : buildEbpfArgsByIP K pod.PodIP true false (s, []) with ⟨r, s', t'⟩
  cases r <;> simp [perform, pure, StateT.pure, StateT.bind]

/-- C10 (as amended): on the enroll paths (updatePodEbpfOnNode, updateZtunnelEbpfOnNode)
every descriptor handed to the eBPF manager carries the fully resolved identity of the
workload address, and when resolution fails at any step (address does not parse, no
veth, no peer index, no namespace name, no hardware address) nothing is handed to the
manager and an error is returned (for updatePodEbpfOnNode: unless the address is empty,
which returns without error).  On removal (delPodEbpfOnNode) only a non-empty address
that does not parse stops the call with an error and no call; with a parsed address the
veth is looked up and one removal descriptor with that address is submitted in any case,
with interface index 0 when the veth lookup failed. -/
theorem ebpf_identity_hard_stop {σ : Type} (K : Collab σ) (mode : RedirectMode) (pod : Pod)
    (captureDNS : Bool) (ip : String) (s : σ) :
    (∀ args, Call.AcceptRequest args ∈ callsOf (updatePodEbpfOnNode K ⟨mode, some ()⟩ pod) s →
        ∃ id, ResolveForIP K s pod.PodIP = some id ∧ CarriesIdentity args id)
      ∧ (ResolveForIP K s pod.PodIP = none →
          (∀ call ∈ callsOf (updatePodEbpfOnNode K ⟨mode, some ()⟩ pod) s, call.isEbpf = false)
            ∧ (pod.PodIP ≠ "" →
                resultOf (updatePodEbpfOnNode K ⟨mode, some ()⟩ pod) s ≠ none))
      ∧ (∀ args,
          Call.AcceptRequest args
              ∈ callsOf (updateZtunnelEbpfOnNode K ⟨mode, some ()⟩ pod captureDNS) s →
            ∃ id, ResolveForIP K s pod.PodIP = some id ∧ CarriesIdentity args id)
      ∧ (ResolveForIP K s pod.PodIP = none →
          (∀ call ∈ callsOf (updateZtunnelEbpfOnNode K ⟨mode, some ()⟩ pod captureDNS) s,
              call.isEbpf = false)
            ∧ resultOf (updateZtunnelEbpfOnNode K ⟨mode, some ()⟩ pod captureDNS) s ≠ none)
      ∧ (∀ e, ip ≠ "" → K.ParseAddr ip = .error e →
          resultOf (delPodEbpfOnNode K ⟨mode, some ()⟩ ip) s ≠ none
            ∧ callsOf (delPodEbpfOnNode K ⟨mode, some ()⟩ ip) s = [])
      ∧ (∀ ipAddr, ip ≠ "" → K.ParseAddr ip = .ok ipAddr →
          resultOf (delPodEbpfOnNode K ⟨mode, some ()⟩ ip) s = none
            ∧ callsOf (delPodEbpfOnNode K ⟨mode, some ()⟩ ip) s
              = [ Call.getVethWithDestinationOf ip,
                  Call.AcceptRequest
                    { IPAddrs := [ipAddr],
                      Ifindex := (match K.getVethWithDestinationOf s ip with
                                  | .error _ => 0
                                  | .ok veth => veth.Index),
                      IsZtunnel := false, Remove := true } ]) := by
  obtain ⟨-, ⟨l, hl, hlP⟩, hok, herr⟩ := buildEbpfArgsByIP_resolve K pod.PodIP false false s []
  obtain ⟨-, ⟨lz, hlz, hlzP⟩, hokz, herrz⟩ := buildEbpfArgsByIP_resolve K pod.PodIP true false s []
  refine ⟨?_, ?_, ?_, ?_, ?_, ?_⟩
  · by_cases hip : pod.PodIP = ""
    · simp [callsOf, runFrom, updatePodEbpfOnNode, hip, pure, StateT.pure]
    · intro args hmem
      simp only [callsOf, run_updatePodEbpfOnNode K mode pod s hip] at hmem
      cases hr : (buildEbpfArgsByIP K pod.PodIP false false (s, [])).1 with
      | error e =>
        simp only [hr, hl, List.nil_append] at hmem
        exact absurd (hlP _ hmem) (by simp [Call.isEbpf])
      | ok a =>
        simp only [hr, hl, List.nil_append, List.mem_append, List.mem_singleton] at hmem
        rcases hmem with hmem | hmem
        · exact absurd (hlP _ hmem) (by simp [Call.isEbpf])
        · simp only [Call.AcceptRequest.injEq] at hmem
          subst hmem
          exact hok _ hr
  · intro hnone
    by_cases hip : pod.PodIP = ""
    · simp [callsOf, runFrom, updatePodEbpfOnNode, hip, pure, StateT.pure]
    · simp only [callsOf, resultOf, run_updatePodEbpfOnNode K mode pod s hip]
      cases hr : (buildEbpfArgsByIP K pod.PodIP false false (s, [])).1 with
      | error e =>
        simp only [hl, List.nil_append]
        exact ⟨hlP, fun _ => by simp⟩
      | ok a =>
        obtain ⟨id, hid, -⟩ := hok _ hr
        simp [hnone] at hid
  · intro args hmem
    simp only [callsOf, run_updateZtunnelEbpfOnNode K mode pod captureDNS s] at hmem
    cases hr : (buildEbpfArgsByIP K pod.PodIP true false (s, [])).1 with
    | error e =>
      simp only [hr, hlz, List.nil_append] at hmem
      exact absurd (hlzP _ hmem) (by simp [Call.isEbpf])
    | ok a =>
      simp only [hr, hlz, List.nil_append, List.mem_append, List.mem_singleton] at hmem
      rcases hmem with hmem | hmem
      · exact absurd (hlzP _ hmem) (by simp [Call.isEbpf])
      · simp only [Call.AcceptRequest.injEq] at hmem
        subst hmem
        obtain ⟨id, hid, hc⟩ := hokz _ hr
        exact ⟨id, hid, hc⟩
  · intro hnone
    simp only [callsOf, resultOf, run_updateZtunnelEbpfOnNode K mode pod captureDNS s]
    cases hr : (buildEbpfArgsByIP K pod.PodIP true false (s, [])).1 with
    | error e =>
      simp only [hlz, List.nil_append]
      exact ⟨hlzP, by simp⟩
    | ok a =>
      obtain ⟨id, hid, -⟩ := hokz _ hr
      simp [hnone] at hid
  · intro e hip hp
    simp [resultOf, callsOf, runFrom, delPodEbpfOnNode, hip, hp, pure, StateT.pure]
  · intro a hip hp
    simp [resultOf, callsOf, runFrom, delPodEbpfOnNode, hip, hp, pure, StateT.pure, bind,
      StateT.bind, observe, perform]

theorem ebpf_identity_hard_stop_witness :
    ∃ id, ResolveForIP (refKernel (exampleConstants "10.0.0.1") exampleEnv) ({} : KState)
            examplePod.PodIP = some id
      ∧ CarriesIdentity
          { IPAddrs := [⟨[10, 1, 2, 7]⟩], MacAddr := [2, 66, 172, 17, 0, 7], Ifindex := 12,
            PeerIndex := 3, PeerNs := "cni-1" } id :=
  (ebpf_identity_hard_stop (refKernel (exampleConstants "10.0.0.1") exampleEnv) .EbpfMode
    examplePod false "" ({} : KState)).1 _ (by decide)

/-- C10 fails as stated on removal: on the reference node no veth routes to 10.1.2.7, so
the identity does not resolve, yet delPodEbpfOnNode returns no error and hands the eBPF
manager a removal descriptor with interface index 0. -/
theorem ebpf_removal_submits_unresolved :
    ResolveForIP (refKernel (exampleConstants "10.0.0.1") {}) ({} : KState) "10.1.2.7" = none
      ∧ resultOf (delPodEbpfOnNode (refKernel (exampleConstants "10.0.0.1") {})
          ⟨.EbpfMode, some ()⟩ "10.1.2.7") ({} : KState) = none
      ∧ callsOf (delPodEbpfOnNode (refKernel (exampleConstants "10.0.0.1") {})
          ⟨.EbpfMode, some ()⟩ "10.1.2.7") ({} : KState)
        = [ Call.getVethWithDestinationOf "10.1.2.7",
            Call.AcceptRequest { IPAddrs := [⟨[10, 1, 2, 7]⟩], Ifindex := 0, Remove := true } ] := by
  decide


/-! ## Host address resolution: GetHostIP -/

theorem internalIPLoop_eq_find (l : List NodeAddress) :
    internalIPLoop l
      = (l.find? (fun address => address.AddrType == NodeInternalIP)).map
          NodeAddress.Address := by
  induction l with
  | nil => rfl
  | cons address rest ih =>
    by_cases h : address.AddrType = NodeInternalIP
    · simp [internalIPLoop, h]
    · simp [internalIPLoop, h, ih]

theorem addrLoop_append (L : NetLib) (network : Prefix) (l₁ l₂ : List String) :
    addrLoop L network (l₁ ++ l₂)
      = (match addrLoop L network l₁ with
         | some r => some r
         | none => addrLoop L network l₂) := by
  induction l₁ with
  | nil => rfl
  | cons addr rest ih =>
    simp only [List.cons_append, addrLoop]
    cases L.ParseAddr (beforeSlash addr) with
    | error e => rfl
    | ok a =>
      by_cases hc : L.Contains network a = true
      · simp only [hc, if_true]
      · simp only [hc, if_false, Bool.false_eq_true]
        exact ih

/-- Scanning interface by interface is scanning the addresses in interface order, then
address order. -/
theorem ifaceLoop_eq_addrLoop (L : NetLib) (network : Prefix) (ifaces : List (List String)) :
    ifaceLoop L network (ifaces.map Except.ok) = addrLoop L network ifaces.flatten := by
  induction ifaces with
  | nil => rfl
  | cons addrs rest ih =>
    simp only [List.map_cons, ifaceLoop, List.flatten_cons, addrLoop_append, ih]

/-- When every address parses, the scan returns the first address in the prefix. -/
theorem addrLoop_all_parse (L : NetLib) (network : Prefix) (l : List String)
    (hparse : ∀ s ∈ l, ∃ a, L.ParseAddr (beforeSlash s) = .ok a) :
    addrLoop L network l
      = ((l.filterMap (fun s => (L.ParseAddr (beforeSlash s)).toOption)).find?
            (fun a => L.Contains network a)).map (fun a => Except.ok (L.AddrString a)) := by
  induction l with
  | nil => rfl
  | cons addr rest ih =>
    obtain ⟨a, ha⟩ := hparse addr (List.mem_cons_self _ _)
    have ih' := ih (fun s hs => hparse s (List.mem_cons_of_mem _ hs))
    by_cases hc : L.Contains network a = true
    · simp [addrLoop, ha, hc, Except.toOption]
    · simp [addrLoop, ha, hc, Except.toOption, ih']

/-- Addresses that parse and lie outside the prefix are passed over. -/
theorem addrLoop_passes (L : NetLib) (network : Prefix) (l : List String)
    (hout : ∀ s ∈ l, ∃ a, L.ParseAddr (beforeSlash s) = .ok a ∧ L.Contains network a = false) :
    addrLoop L network l = none := by
  induction l with
  | nil => rfl
  | cons addr rest ih =>
    obtain ⟨a, ha, hc⟩ := hout addr (List.mem_cons_self _ _)
    simp [addrLoop, ha, hc, ih (fun s hs => hout s (List.mem_cons_of_mem _ hs))]

/-- The run of `GetHostIP` on a node with a pod CIDR that parses, given the addresses of
the local interfaces. -/
theorem GetHostIP_scan (L : NetLib) (node : Node) (ifaces : List (List String))
    (network : Prefix) (hset : node.PodCIDR ≠ "")
    (hcidr : L.ParsePrefix node.PodCIDR = .ok network) :
    GetHostIP L (.ok node) (.ok (ifaces.map Except.ok))
      = (match addrLoop L network ifaces.flatten with
         | some r => r
         | none => .ok ((firstInternalIP node).getD "")) := by
  simp only [GetHostIP, hset, if_false, hcidr, ifaceLoop_eq_addrLoop, internalIPLoop_eq_find,
    firstInternalIP]
  cases addrLoop L network ifaces.flatten with
  | some r => rfl
  | none =>
    cases h : List.find? (fun address => address.AddrType == NodeInternalIP) node.Addresses <;>
      simp [h]

/-- C11 (as amended): for every node object and every list of local interface
addresses: with no pod CIDR set, GetHostIP returns the node's first address of type
NodeInternalIP (the empty string, without error, when the node has none); with a pod CIDR
that does not parse it returns an error; with a pod CIDR that parses and interface
addresses that all parse, it returns the first address, in interface order and then
address order, that lies in the CIDR, and the first NodeInternalIP (or the empty string)
when none does; an address that does not parse, met before any address in the CIDR, ends
the call with an error. -/
theorem getHostIP_resolution (L : NetLib) (node : Node) (ifaces : List (List String)) :
    (node.PodCIDR = "" →
        GetHostIP L (.ok node) (.ok (ifaces.map Except.ok))
          = .ok ((firstInternalIP node).getD ""))
      ∧ (∀ e, node.PodCIDR ≠ "" → L.ParsePrefix node.PodCIDR = .error e →
          GetHostIP L (.ok node) (.ok (ifaces.map Except.ok))
            = .error ("error parsing node IP: " ++ e))
      ∧ (∀ network, node.PodCIDR ≠ "" → L.ParsePrefix node.PodCIDR = .ok network →
          (∀ s ∈ ifaces.flatten, ∃ a, L.ParseAddr (beforeSlash s) = .ok a) →
          GetHostIP L (.ok node) (.ok (ifaces.map Except.ok))
            = (match firstInCIDR L network ifaces with
               | some a => .ok (L.AddrString a)
               | none => .ok ((firstInternalIP node).getD "")))
      ∧ (∀ network pre s post e, node.PodCIDR ≠ "" →
          L.ParsePrefix node.PodCIDR = .ok network →
          ifaces.flatten = pre ++ s :: post →
          (∀ t ∈ pre, ∃ a, L.ParseAddr (beforeSlash t) = .ok a ∧ L.Contains network a = false) →
          L.ParseAddr (beforeSlash s) = .error e →
          GetHostIP L (.ok node) (.ok (ifaces.map Except.ok))
            = .error ("error parsing address: " ++ e)) := by
  refine ⟨?_, ?_, ?_, ?_⟩
  · intro hempty
    simp only [GetHostIP, hempty, if_true, internalIPLoop_eq_find, firstInternalIP]
    cases h : List.find? (fun address => address.AddrType == NodeInternalIP) node.Addresses <;>
      simp [h]
  · intro e hset hcidr
    simp only [GetHostIP, hset, if_false, hcidr]
  · intro network hset hcidr hparse
    rw [GetHostIP_scan L node ifaces network hset hcidr, addrLoop_all_parse L network _ hparse]
    unfold firstInCIDR
    cases List.find? (fun a => L.Contains network a)
        (List.filterMap (fun s => (L.ParseAddr (beforeSlash s)).toOption) ifaces.flatten) <;>
      rfl
  · intro network pre s post e hset hcidr hsplit hpre hs
    rw [GetHostIP_scan L node ifaces network hset hcidr, hsplit, addrLoop_append,
      addrLoop_passes L network pre hpre]
    simp [addrLoop, hs]

theorem getHostIP_resolution_witness :
    GetHostIP refNetLib (.ok exampleNode) (.ok (exampleIfaces.map Except.ok))
      = .ok "10.244.1.1" :=
  (getHostIP_resolution refNetLib exampleNode exampleIfaces).2.2.1 ⟨⟨[10, 244, 1, 0]⟩, 24⟩
    (by decide) rfl
    (by
      intro s hs
      simp only [exampleIfaces, List.flatten, List.append_nil, List.cons_append,
        List.nil_append, List.mem_cons, List.mem_singleton, List.not_mem_nil, or_false] at hs
      rcases hs with rfl | rfl | rfl | rfl <;> exact ⟨_, rfl⟩)

/-- C11 fails as stated: the pod CIDR of the node is set but its text does not parse (a
field with a leading zero), so no interface address lies in it, and the node reports the
internal address 192.168.1.5; GetHostIP returns an error instead of that address. -/
theorem getHostIP_unparsable_cidr :
    ({ exampleNode with PodCIDR := "10.244.01.0/24" } : Node).PodCIDR ≠ ""
      ∧ refNetLib.ParsePrefix "10.244.01.0/24" = .error "no IP"
      ∧ firstInternalIP { exampleNode with PodCIDR := "10.244.01.0/24" } = some "192.168.1.5"
      ∧ GetHostIP refNetLib (.ok { exampleNode with PodCIDR := "10.244.01.0/24" })
          (.ok (exampleIfaces.map Except.ok))
        = .error "error parsing node IP: no IP" :=
  ⟨by decide, rfl, by decide, rfl⟩

end Ambient
